import Mathlib

/-!
# Verification development for the scheduling chatbot

Shallow embedding of the scheduling-intent extraction and multi-turn
slot-filling dialogue engine from `src/app/routes.py`, together with its
collaborator modules (`storage.py`, `calendar.py`, `tasks.py`, `emailer.py`).

Modelling conventions:

* All datetimes live in the single configured local time zone; a datetime is
  an integer count of microseconds since the Unix epoch (`1970-01-01T00:00`
  local) — microseconds are the resolution of Python `datetime`.  `tzinfo`
  attachment/normalisation (`replace(tzinfo=...)`, `astimezone`) is the
  identity in this single-zone model.  Calendar dates are integer day
  indices (days since the epoch); `date.isoformat()` /
  `datetime.fromisoformat()` on stored dates are the identity on that index.
  Decimal literals matched by the regexes (`float(m.group(1))`) are kept as
  exact decimals; binary floating-point rounding is not modelled (every value
  in the spec and the claims is an integer, where float arithmetic is exact).
* Python regular-expression searches are translated pattern by pattern into
  recursive matchers over `List Char` (ASCII word characters and whitespace,
  which covers the English keyword vocabulary the patterns target).
  Alternation order, greediness and word boundaries follow the source
  patterns.
* `dateutil.parser.parse(text, fuzzy_with_tokens=True, default=d)` is an
  external library (the spec lists absolute date resolution as an external
  capability), so it is a parameter `fp : FuzzyAbs` of the embedding; `none`
  models the `ValueError`/`OverflowError` caught by the source.
* Stateful code runs in a monad `M` over an explicit `World`; Python
  exceptions are `Except.error` (state mutations before a raise persist, as
  in Python), `try/except` is `mTry`.  External collaborator calls log an
  `Effect` and may fail according to failure oracles: `so` for the
  conversation/message store, `eo` for calendar, task and email services.
-/

/-! ## Characters and strings -/

def isWsC (c : Char) : Bool :=
  c == ' ' || c == '\t' || c == '\n' || c == '\r' || c == '\x0b' || c == '\x0c'

def isDigitC (c : Char) : Bool := '0' ≤ c && c ≤ '9'

def isAlphaC (c : Char) : Bool := ('a' ≤ c && c ≤ 'z') || ('A' ≤ c && c ≤ 'Z')

/-- Python `\w` restricted to ASCII. -/
def isWordC (c : Char) : Bool := isAlphaC c || isDigitC c || c == '_'

def lowC (c : Char) : Char := c.toLower

def lowerL (s : List Char) : List Char := s.map lowC

def digitVal (c : Char) : Nat := c.toNat - '0'.toNat

/-- Python `str.strip()` (both ends, whitespace). -/
def stripL (s : List Char) : List Char :=
  ((s.dropWhile isWsC).reverse.dropWhile isWsC).reverse

def stripS (s : String) : String := String.mk (stripL s.data)

def lowerS (s : String) : String := String.mk (lowerL s.data)

/-- `p` is a prefix of `s` (case sensitive), Python `str.startswith`. -/
def isPre : List Char → List Char → Bool
  | [], _ => true
  | _ :: _, [] => false
  | p :: ps, c :: cs => p == c && isPre ps cs

def startsWithS (p s : String) : Bool := isPre p.data s.data

/-- Python `needle in hay` substring containment. -/
def containsSub (needle : List Char) : List Char → Bool
  | [] => isPre needle []
  | c :: cs => isPre needle (c :: cs) || containsSub needle cs

/-- `any(word in hay for word in words)`. -/
def containsAny (words : List String) (hay : List Char) : Bool :=
  words.any (fun n => containsSub n.data hay)

/-- Python `str.replace(old, new)`: every non-overlapping occurrence, left to
right.  (`old` is never empty at the call sites.) -/
def pyReplaceGo (old new : List Char) : Nat → List Char → List Char
  | _, [] => []
  | 0, s => s
  | fuel + 1, c :: cs =>
    if old ≠ [] && isPre old (c :: cs) then
      new ++ pyReplaceGo old new fuel (List.drop (old.length - 1) cs)
    else c :: pyReplaceGo old new fuel cs

def pyReplaceL (s old new : List Char) : List Char := pyReplaceGo old new s.length s

/-! ## Calendar arithmetic

Day indices (days since 1970-01-01) use the standard civil-calendar
conversion, so that concrete dates in theorem statements mean the dates the
spec names. -/

def daysFromCivil (y m d : Int) : Int :=
  let y2 := if m ≤ 2 then y - 1 else y
  let era := Int.fdiv y2 400
  let yoe := y2 - era * 400
  let mp := (m + 9) % 12
  let doy := Int.fdiv (153 * mp + 2) 5 + d - 1
  let doe := yoe * 365 + Int.fdiv yoe 4 - Int.fdiv yoe 100 + doy
  era * 146097 + doe - 719468

/-- The day index of the civil date `y-m-d`. -/
def civil (y m d : Int) : Int := daysFromCivil y m d

def civilFromDays (z : Int) : Int × Int × Int :=
  let z2 := z + 719468
  let era := Int.fdiv z2 146097
  let doe := z2 - era * 146097
  let yoe := Int.fdiv (doe - Int.fdiv doe 1460 + Int.fdiv doe 36524 - Int.fdiv doe 146096) 365
  let y := yoe + era * 400
  let doy := doe - (365 * yoe + Int.fdiv yoe 4 - Int.fdiv yoe 100)
  let mp := Int.fdiv (5 * doy + 2) 153
  let d := doy - Int.fdiv (153 * mp + 2) 5 + 1
  let m := mp + (if mp < 10 then 3 else -9)
  (if m ≤ 2 then y + 1 else y, m, d)

/-- A datetime: microseconds since `1970-01-01T00:00` local. -/
abbrev DT := Int

def usPerMin : Int := 60000000

def usPerHour : Int := 3600000000

def usPerDay : Int := 86400000000

/-- `datetime(y, m, d, hh, mi)`. -/
def dtM (y m d hh mi : Int) : DT :=
  (daysFromCivil y m d) * usPerDay + (hh * 60 + mi) * usPerMin

/-- `dt.date()`. -/
def dayOf (q : DT) : Int := Int.fdiv q usPerDay

/-- `dt.timetz()` as microseconds past local midnight. -/
def timeOfDay (q : DT) : Int := q - usPerDay * dayOf q

/-- `datetime.combine(date, time)`. -/
def combineDT (d : Int) (t : Int) : DT := usPerDay * d + t

/-- `dt.replace(hour=0, minute=0, second=0, microsecond=0)`. -/
def midnightOf (q : DT) : DT := usPerDay * dayOf q

/-- An exact decimal matched by `(\d+(?:\.\d+)?)`: value
`intPart + fracNum / fracDen` with `fracDen` a power of ten. -/
structure DecNum where
  intPart : Nat
  fracNum : Nat
  fracDen : Nat
deriving Repr, DecidableEq

/-- Round `a / b` to the nearest integer, ties to even (Python microsecond
rounding in `timedelta`); `b > 0` at every call site. -/
def divHalfEven (a b : Int) : Int :=
  let q := Int.fdiv a b
  let r := a - q * b
  if 2 * r < b then q
  else if b < 2 * r then q + 1
  else if q % 2 == 0 then q else q + 1

/-- `timedelta(minutes= / hours= v)` in microseconds: `perUnit` microseconds
per unit. -/
def decScaleUs (perUnit : Int) (v : DecNum) : Int :=
  perUnit * v.intPart + divHalfEven (perUnit * v.fracNum) v.fracDen

/-- `int(m * v)` for non-negative decimal `v` (Python truncation = floor
here). -/
def decScaleFloor (m : Nat) (v : DecNum) : Nat :=
  m * v.intPart + (m * v.fracNum) / v.fracDen

def padTwo (n : Int) : String := if n < 10 then "0" ++ toString n else toString n

/-- `f"{dt:%Y-%m-%d at %H:%M}"`. -/
def fmtDT (q : DT) : String :=
  let day := dayOf q
  let c := civilFromDays day
  let tod := Int.fdiv (timeOfDay q) usPerMin
  let hh := Int.fdiv tod 60
  let mi := tod % 60
  toString c.1 ++ "-" ++ padTwo c.2.1 ++ "-" ++ padTwo c.2.2 ++ " at " ++
    padTwo hh ++ ":" ++ padTwo mi

/-- `str(datetime)` as used in e-mail bodies; abbreviated to the same
rendering (no theorem inspects these bodies). -/
def dtStr (q : DT) : String := fmtDT q


/-! ## Regex matchers

Each compiled pattern of `routes.py` is translated to a recursive matcher.
`prev` is the character preceding the current position (`none` at the string
start), used for `\b`; every alternative in these patterns begins and ends
with a word character, so a leading `\b` is `prev` absent-or-non-word and a
trailing `\b` is next-char absent-or-non-word.  All patterns below carry
`re.IGNORECASE`, so literals are compared case-insensitively. -/

/-- Leading `\b` before a word character. -/
def startB (prev : Option Char) : Bool :=
  match prev with
  | none => true
  | some c => !isWordC c

/-- Trailing `\b` after a word character. -/
def nextNonWord (s : List Char) : Bool :=
  match s with
  | [] => true
  | c :: _ => !isWordC c

/-- Match the lowercase literal `pat` case-insensitively against a prefix of
`s`, returning the remainder. -/
def dropCI : List Char → List Char → Option (List Char)
  | [], s => some s
  | _ :: _, [] => none
  | p :: ps, c :: cs => if lowC c == p then dropCI ps cs else none

/-- First alternative (in pattern order) matching with a trailing `\b`;
returns its length and the canonical (lowercase) alternative — which equals
`m.group(...).lower()` because the alternatives are literals. -/
def tryAltsB (alts : List String) (s : List Char) : Option (Nat × String)
  := match alts with
  | [] => none
  | a :: rest =>
    match dropCI a.data s with
    | some after => if nextNonWord after then some (a.data.length, a) else tryAltsB rest s
    | none => tryAltsB rest s

/-- `pattern.search(text)` as a boolean: try `tryM` at every position. -/
def searchGo (tryM : Option Char → List Char → Bool) : Option Char → List Char → Bool
  | prev, [] => tryM prev []
  | prev, c :: cs => tryM prev (c :: cs) || searchGo tryM (some c) cs

/-- `pattern.search(text)` keeping the leftmost match: `(m.start(), length
of m.group(0), payload)`. -/
def searchIdxGo (tryM : Option Char → List Char → Option (Nat × α)) :
    Nat → Option Char → List Char → Option (Nat × Nat × α)
  | i, prev, [] =>
    match tryM prev [] with
    | some (len, a) => some (i, len, a)
    | none => none
  | i, prev, c :: cs =>
    match tryM prev (c :: cs) with
    | some (len, a) => some (i, len, a)
    | none => searchIdxGo tryM (i + 1) (some c) cs

/-- Up to `n` leading digits (greedy). -/
def takeDigitsUpTo : Nat → List Char → (List Char × List Char)
  | 0, s => ([], s)
  | _ + 1, [] => ([], [])
  | n + 1, c :: cs =>
    if isDigitC c then
      let r := takeDigitsUpTo n cs
      (c :: r.1, r.2)
    else ([], c :: cs)

/-- All leading digits (greedy `\d+`). -/
def takeDigits : List Char → (List Char × List Char)
  | [] => ([], [])
  | c :: cs =>
    if isDigitC c then
      let r := takeDigits cs
      (c :: r.1, r.2)
    else ([], c :: cs)

def digitsNat (ds : List Char) : Nat := ds.foldl (fun a c => a * 10 + digitVal c) 0

/-- Leading whitespace run: (length, rest).  (`\s+` / `\s*` are greedy; in
every pattern below the whitespace is followed by a digit or letter, so only
the maximal run can succeed.) -/
def takeWs (s : List Char) : Nat × List Char :=
  ((s.takeWhile isWsC).length, s.dropWhile isWsC)

/-- `(\d+(?:\.\d+)?)` at the head of `s`: (value, consumed length, rest). -/
def takeNumber (s : List Char) : Option (DecNum × Nat × List Char) :=
  let p := takeDigits s
  if p.1 == [] then none
  else
    match p.2 with
    | '.' :: r2 =>
      let f := takeDigits r2
      if f.1 == [] then some (⟨digitsNat p.1, 0, 1⟩, p.1.length, p.2)
      else some (⟨digitsNat p.1, digitsNat f.1, 10 ^ f.1.length⟩,
                 p.1.length + 1 + f.1.length, f.2)
    | _ => some (⟨digitsNat p.1, 0, 1⟩, p.1.length, p.2)

/-! ### TIME_COMPONENT_PATTERN
`\b(\d{1,2}:\d{2}|\d{1,2}\s?(?:am|pm)|noon|midnight)\b` -/

/-- `\d{k}:\d{2}\b` for the `\d{1,2}` branch instantiated at `k`. -/
def matchHHMM (k : Nat) (s : List Char) : Bool :=
  let p := takeDigitsUpTo k s
  p.1.length == k &&
    match p.2 with
    | ':' :: d1 :: d2 :: rest => isDigitC d1 && isDigitC d2 && nextNonWord rest
    | _ => false

/-- `\d{k}\s?(?:am|pm)\b`. -/
def matchDigAmPm (k : Nat) (s : List Char) : Bool :=
  let p := takeDigitsUpTo k s
  if p.1.length == k then
    let amPmAt (t : List Char) : Bool := (tryAltsB ["am", "pm"] t).isSome
    (match p.2 with
     | c :: rest => (isWsC c && amPmAt rest) || amPmAt p.2
     | [] => false)
  else false

def tryTimeComponent (prev : Option Char) (s : List Char) : Bool :=
  startB prev &&
    (matchHHMM 2 s || matchHHMM 1 s ||
     matchDigAmPm 2 s || matchDigAmPm 1 s ||
     (tryAltsB ["noon", "midnight"] s).isSome)

def searchTimeComponent (s : List Char) : Bool := searchGo tryTimeComponent none s

/-! ### EXPLICIT_DATE_PATTERN
`\b(\d{4}-\d{1,2}-\d{1,2}|\d{1,2}/\d{1,2}(?:/\d{2,4})?)\b | \b(month /
weekday words, today|tonight|tomorrow|next|this|coming)\b` -/

/-- `\d{1,2}` followed by continuation `next` (greedy, with backtracking to
one digit). -/
def matchD12 (next : List Char → Bool) : List Char → Bool
  | a :: b :: r => isDigitC a && ((isDigitC b && next r) || next (b :: r))
  | [a] => isDigitC a && next []
  | [] => false

/-- `\d{2,4}\b` (the optional year of the slash form). -/
def matchD24 (s : List Char) : Bool :=
  let p := takeDigitsUpTo 4 s
  decide (2 ≤ p.1.length) && nextNonWord p.2

/-- `\d{4}-\d{1,2}-\d{1,2}\b`. -/
def matchIsoDate (s : List Char) : Bool :=
  let p := takeDigitsUpTo 4 s
  p.1.length == 4 &&
    match p.2 with
    | '-' :: r =>
      matchD12 (fun r2 =>
        match r2 with
        | '-' :: r3 => matchD12 nextNonWord r3
        | _ => false) r
    | _ => false

/-- `\d{1,2}/\d{1,2}(?:/\d{2,4})?\b`. -/
def matchSlashDate (s : List Char) : Bool :=
  matchD12 (fun r =>
    match r with
    | '/' :: r2 =>
      matchD12 (fun r3 =>
        (match r3 with
         | '/' :: r4 => matchD24 r4
         | _ => false) || nextNonWord r3) r2
    | _ => false) s

/-- The word alternatives of `EXPLICIT_DATE_PATTERN`, in pattern order with
the optional tails expanded greedy-first. -/
def explicitDateWords : List String :=
  ["january", "jan", "february", "feb", "march", "mar", "april", "apr", "may",
   "june", "jun", "july", "jul", "august", "aug", "september", "sept", "sep",
   "october", "oct", "november", "nov", "december", "dec",
   "monday", "mon", "tuesday", "tue", "wednesday", "wed", "thursday", "thu",
   "friday", "fri", "saturday", "sat", "sunday", "sun",
   "today", "tonight", "tomorrow", "next", "this", "coming"]

def tryExplicitDate (prev : Option Char) (s : List Char) : Bool :=
  startB prev &&
    (matchIsoDate s || matchSlashDate s || (tryAltsB explicitDateWords s).isSome)

def searchExplicitDate (s : List Char) : Bool := searchGo tryExplicitDate none s

/-! ### Relative-offset patterns -/

def minuteUnits : List String := ["minutes", "minute", "mins", "min", "m"]

def hourUnits : List String := ["hours", "hour", "hrs", "hr", "h"]

/-- `\bin\s+(\d+(?:\.\d+)?)\s*(units)\b`: returns (match length, value). -/
def tryRelNum (units : List String) (prev : Option Char) (s : List Char) :
    Option (Nat × DecNum) :=
  if !startB prev then none
  else
    match dropCI ['i', 'n'] s with
    | none => none
    | some r0 =>
      let w1 := takeWs r0
      if w1.1 == 0 then none
      else
        match takeNumber w1.2 with
        | none => none
        | some (v, nl, r2) =>
          let w2 := takeWs r2
          match tryAltsB units w2.2 with
          | some (ul, _) => some (2 + w1.1 + nl + w2.1 + ul, v)
          | none => none

def searchRelMinutes (s : List Char) : Option (Nat × Nat × DecNum) :=
  searchIdxGo (tryRelNum minuteUnits) 0 none s

def searchRelHours (s : List Char) : Option (Nat × Nat × DecNum) :=
  searchIdxGo (tryRelNum hourUnits) 0 none s

/-- `\bin\s+half\s+(?:an\s+)?hour\b`: returns match length. -/
def tryRelHalfHour (prev : Option Char) (s : List Char) : Option (Nat × Unit) :=
  if !startB prev then none
  else
    match dropCI ['i', 'n'] s with
    | none => none
    | some r0 =>
      let w1 := takeWs r0
      if w1.1 == 0 then none
      else
        match dropCI ['h', 'a', 'l', 'f'] w1.2 with
        | none => none
        | some r1 =>
          let w2 := takeWs r1
          if w2.1 == 0 then none
          else
            -- optional `an\s+`, greedy: try with it first
            let withAn : Option Nat :=
              match dropCI ['a', 'n'] w2.2 with
              | none => none
              | some r2 =>
                let w3 := takeWs r2
                if w3.1 == 0 then none
                else
                  match dropCI ['h', 'o', 'u', 'r'] w3.2 with
                  | some r3 => if nextNonWord r3 then some (2 + w3.1 + 4) else none
                  | none => none
            match withAn with
            | some tail => some (2 + w1.1 + 4 + w2.1 + tail, ())
            | none =>
              match dropCI ['h', 'o', 'u', 'r'] w2.2 with
              | some r3 =>
                if nextNonWord r3 then some (2 + w1.1 + 4 + w2.1 + 4, ()) else none
              | none => none

def searchRelHalfHour (s : List Char) : Option (Nat × Nat × Unit) :=
  searchIdxGo tryRelHalfHour 0 none s

/-- One alternative of `(an|a|one)` followed by `\s+hour\b`. -/
def trySingleHourAlt (alt : String) (s : List Char) : Option Nat :=
  match dropCI alt.data s with
  | none => none
  | some r =>
    let w := takeWs r
    if w.1 == 0 then none
    else
      match dropCI ['h', 'o', 'u', 'r'] w.2 with
      | some r2 => if nextNonWord r2 then some (alt.data.length + w.1 + 4) else none
      | none => none

/-- `\bin\s+(an|a|one)\s+hour\b` (alternatives tried in pattern order, each
with its full continuation). -/
def tryRelSingleHour (prev : Option Char) (s : List Char) : Option (Nat × Unit) :=
  if !startB prev then none
  else
    match dropCI ['i', 'n'] s with
    | none => none
    | some r0 =>
      let w1 := takeWs r0
      if w1.1 == 0 then none
      else
        match trySingleHourAlt "an" w1.2 with
        | some tail => some (2 + w1.1 + tail, ())
        | none =>
          match trySingleHourAlt "a" w1.2 with
          | some tail => some (2 + w1.1 + tail, ())
          | none =>
            match trySingleHourAlt "one" w1.2 with
            | some tail => some (2 + w1.1 + tail, ())
            | none => none

def searchRelSingleHour (s : List Char) : Option (Nat × Nat × Unit) :=
  searchIdxGo tryRelSingleHour 0 none s

def numberWords : List String :=
  ["two", "three", "four", "five", "six", "seven", "eight", "nine", "ten",
   "eleven", "twelve"]

/-- One word alternative followed by `\s+hours?\b` (greedy optional `s`). -/
def tryWordHoursAlt (alt : String) (s : List Char) : Option (Nat × String) :=
  match dropCI alt.data s with
  | none => none
  | some r =>
    let w := takeWs r
    if w.1 == 0 then none
    else
      match tryAltsB ["hours", "hour"] w.2 with
      | some (ul, _) => some (alt.data.length + w.1 + ul, alt)
      | none => none

def tryAltsWordHours (alts : List String) (s : List Char) : Option (Nat × String) :=
  match alts with
  | [] => none
  | a :: rest =>
    match tryWordHoursAlt a s with
    | some r => some r
    | none => tryAltsWordHours rest s

/-- `\bin\s+(two|...|twelve)\s+hours?\b`: returns (length, matched word). -/
def tryRelWordHours (prev : Option Char) (s : List Char) : Option (Nat × String) :=
  if !startB prev then none
  else
    match dropCI ['i', 'n'] s with
    | none => none
    | some r0 =>
      let w1 := takeWs r0
      if w1.1 == 0 then none
      else
        match tryAltsWordHours numberWords w1.2 with
        | some (tail, word) => some (2 + w1.1 + tail, word)
        | none => none

def searchRelWordHours (s : List Char) : Option (Nat × Nat × String) :=
  searchIdxGo tryRelWordHours 0 none s

/-! ### Duration patterns -/

def durationUnits : List String :=
  ["hours", "hour", "hrs", "hr", "h", "minutes", "minute", "mins", "min", "m"]

/-- `DURATION_PATTERN = \b(\d+(?:\.\d+)?)\s*(hours?|hrs?|h|minutes?|mins?|m)\b`:
returns (length, value, canonical unit). -/
def tryDuration (prev : Option Char) (s : List Char) : Option (Nat × DecNum × String) :=
  if !startB prev then none
  else
    match takeNumber s with
    | none => none
    | some (v, nl, r) =>
      let w := takeWs r
      match tryAltsB durationUnits w.2 with
      | some (ul, u) => some (nl + w.1 + ul, v, u)
      | none => none

def searchDuration (s : List Char) : Option (Nat × Nat × DecNum × String) :=
  searchIdxGo (fun p t => (tryDuration p t).map (fun r => (r.1, r.2))) 0 none s

def wordDurationWords : List String :=
  ["half", "an", "a", "one", "two", "three", "four", "five", "six", "seven",
   "eight", "nine", "ten", "eleven", "twelve"]

def wordDurationUnits : List String :=
  ["hours", "hour", "hour", "hrs", "hr", "h", "minutes", "minute", "mins", "min", "m"]

/-- One word alternative of `WORD_DURATION_PATTERN` followed by
`\s+(units)\b`. -/
def tryWordDurAlt (alt : String) (s : List Char) : Option (Nat × String × String) :=
  match dropCI alt.data s with
  | none => none
  | some r =>
    let w := takeWs r
    if w.1 == 0 then none
    else
      match tryAltsB wordDurationUnits w.2 with
      | some (ul, u) => some (alt.data.length + w.1 + ul, alt, u)
      | none => none

def tryAltsWordDur (alts : List String) (s : List Char) : Option (Nat × String × String) :=
  match alts with
  | [] => none
  | a :: rest =>
    match tryWordDurAlt a s with
    | some r => some r
    | none => tryAltsWordDur rest s

/-- `WORD_DURATION_PATTERN =
\b(half|an|a|one|...|twelve)\s+(hours?|hour|hrs?|h|minutes?|mins?|m)\b`:
returns (length, word, unit), both groups lowercased as in the source. -/
def tryWordDuration (prev : Option Char) (s : List Char) : Option (Nat × String × String) :=
  if !startB prev then none else tryAltsWordDur wordDurationWords s

def searchWordDuration (s : List Char) : Option (Nat × Nat × String × String) :=
  searchIdxGo (fun p t => (tryWordDuration p t).map (fun r => (r.1, r.2))) 0 none s

/-! ### Title-cleanup patterns -/

/-- `DATEWORD_PATTERN` word list, in pattern order. -/
def datewordList : List String :=
  ["today", "tonight", "tomorrow", "morning", "afternoon", "evening", "tonite",
   "next", "this", "coming", "monday", "tuesday", "wednesday", "thursday",
   "friday", "saturday", "sunday"]

/-- `STOPWORD_PATTERN` word list, in pattern order (duplicates kept). -/
def stopwordList : List String :=
  ["please", "thanks", "thank you", "schedule", "book", "set up", "set-up",
   "setup", "arrange", "reschedule", "move", "change", "cancel", "appointment",
   "meeting", "new", "make", "create", "fix", "set", "put", "slot", "slot in",
   "plan", "organise", "organize", "could", "would", "like", "help", "me",
   "my", "for", "on", "at", "the", "a", "an", "to", "with", "from", "about",
   "let", "know", "if", "you", "hey", "hi", "hello", "thanks", "thank",
   "there", "just", "need", "want", "please", "kindly", "any", "chance",
   "maybe", "could you", "can you"]

/-- `re.sub(pattern, " ", s)`: scan the original string left to right,
replace each non-overlapping match by one space; matching always looks at
the original characters. -/
def subGo (tryM : Option Char → List Char → Option Nat) :
    Nat → Option Char → List Char → List Char
  | 0, _, s => s
  | _ + 1, _, [] => []
  | fuel + 1, prev, c :: cs =>
    match tryM prev (c :: cs) with
    | some len =>
      let lastC := (List.take len (c :: cs)).getLastD c
      ' ' :: subGo tryM fuel (some lastC) (List.drop len (c :: cs))
    | none => c :: subGo tryM fuel (some c) cs

def tryWordList (alts : List String) (prev : Option Char) (s : List Char) : Option Nat :=
  if startB prev then (tryAltsB alts s).map (fun r => r.1) else none

/-- `DATEWORD_PATTERN.sub(" ", s)`. -/
def subDateword (s : List Char) : List Char :=
  subGo (tryWordList datewordList) s.length none s

/-- `STOPWORD_PATTERN.sub(" ", s)`. -/
def subStopword (s : List Char) : List Char :=
  subGo (tryWordList stopwordList) s.length none s

/-- `\b\d{1,2}(:\d{2})?\b` at the current position (greedy digits, greedy
optional `:MM`). -/
def tryNumFragment (prev : Option Char) (s : List Char) : Option Nat :=
  if !startB prev then none
  else
    let att (k : Nat) : Option Nat :=
      let p := takeDigitsUpTo k s
      if p.1.length == k then
        match p.2 with
        | ':' :: d1 :: d2 :: r2 =>
          if isDigitC d1 && isDigitC d2 && nextNonWord r2 then some (k + 3)
          else if nextNonWord p.2 then some k else none
        | _ => if nextNonWord p.2 then some k else none
      else none
    match att 2 with
    | some l => some l
    | none => att 1

/-- `re.sub(r"\b\d{1,2}(:\d{2})?\b", " ", s)`. -/
def subNumFragment (s : List Char) : List Char :=
  subGo tryNumFragment s.length none s

/-- `re.sub(r"[^A-Za-z0-9'&/@\-\s]", " ", s)`. -/
def subBadChars (s : List Char) : List Char :=
  s.map (fun c =>
    if isAlphaC c || isDigitC c || c == '\x27' || c == '&' || c == '/' ||
       c == '@' || c == '-' || isWsC c then c else ' ')

/-- `re.sub(r"\s+", " ", s)`. -/
def collapseWsGo : Nat → List Char → List Char
  | 0, s => s
  | _ + 1, [] => []
  | fuel + 1, c :: cs =>
    if isWsC c then ' ' :: collapseWsGo fuel (cs.dropWhile isWsC)
    else c :: collapseWsGo fuel cs

def collapseWs (s : List Char) : List Char := collapseWsGo s.length s

def isStripC (c : Char) : Bool := c == ' ' || c == '-' || c == ',' || c == ':'

/-- `.strip(" -,:")`. -/
def stripTitleChars (s : List Char) : List Char :=
  ((s.dropWhile isStripC).reverse.dropWhile isStripC).reverse

/-! ## Pure core of `routes.py` -/

def SCHEDULE_KEYWORDS : List String :=
  ["schedule", "book", "set up", "set-up", "setup", "arrange", "appointment", "meeting"]

def RESCHEDULE_KEYWORDS : List String :=
  ["reschedule", "move", "change", "update", "shift"]

def CANCEL_KEYWORDS : List String :=
  ["cancel", "call off", "drop", "call-off", "calloff"]

def STOP_CONVERSATION_PHRASES : List String :=
  ["never mind", "nevermind", "forget it", "ignore that"]

def WORD_TO_NUMBER (w : String) : Option Nat :=
  if w == "one" then some 1
  else if w == "two" then some 2
  else if w == "three" then some 3
  else if w == "four" then some 4
  else if w == "five" then some 5
  else if w == "six" then some 6
  else if w == "seven" then some 7
  else if w == "eight" then some 8
  else if w == "nine" then some 9
  else if w == "ten" then some 10
  else if w == "eleven" then some 11
  else if w == "twelve" then some 12
  else none

/-- The leftover tokens `(text[:m.start()], text[m.end():])`. -/
def relTokens (s : List Char) (i len : Nat) : List String :=
  [String.mk (s.take i), String.mk (s.drop (i + len))]

/-- `_parse_relative_datetime(text, reference)`. -/
def parse_relative_datetime (text : String) (reference : DT) : Option (DT × List String) :=
  let s := text.data
  match searchRelMinutes s with
  | some (i, len, v) => some (reference + decScaleUs usPerMin v, relTokens s i len)
  | none =>
  match searchRelHours s with
  | some (i, len, v) => some (reference + decScaleUs usPerHour v, relTokens s i len)
  | none =>
  match searchRelHalfHour s with
  | some (i, len, _) => some (reference + 30 * usPerMin, relTokens s i len)
  | none =>
  match searchRelSingleHour s with
  | some (i, len, _) => some (reference + 60 * usPerMin, relTokens s i len)
  | none =>
  match searchRelWordHours s with
  | some (i, len, word) =>
    match WORD_TO_NUMBER word with
    | some hours => some (reference + (hours : Int) * usPerHour, relTokens s i len)
    | none => none
  | none => none

/-- `dateutil.parser.parse(text, fuzzy_with_tokens=True, default=d)`:
external collaborator, a parameter of the embedding.  `none` models the
`ValueError` / `OverflowError` the source catches. -/
def FuzzyAbs : Type := String → DT → Option (DT × List String)

/-- The dictionary returned by `_extract_datetime_details`.  The source's
`except` branch omits the `explicit_date` and `parsed` keys and the relative
branch omits `parsed`; every consumer reads them with `.get(key)` /
`.get(key, False)`, so the omitted keys are modelled as `false` / `none`. -/
structure ExtractRes where
  start : Option DT
  tokens : List String
  has_time : Bool
  has_date : Bool
  explicit_date : Bool
  date : Option Int
  parsed : Option DT
deriving Repr, DecidableEq

/-- `_extract_datetime_details(text)`; `reference` is `_now()` and `fp` the
external fuzzy parser. -/
def extract_datetime_details (fp : FuzzyAbs) (reference : DT) (text : String) : ExtractRes :=
  match parse_relative_datetime text reference with
  | some (start, tokens) =>
    { start := some start, tokens := tokens, has_time := true, has_date := true,
      explicit_date := true, date := some (dayOf start), parsed := none }
  | none =>
    let dflt := midnightOf reference
    match fp text dflt with
    | none =>
      { start := none, tokens := [], has_time := false, has_date := false,
        explicit_date := false, date := none, parsed := none }
    | some (parsed0, tokens) =>
      -- tz attach/normalise is the identity in the single-zone model
      let parsed := parsed0
      let has_time := searchTimeComponent text.data || false
      let explicit_date := searchExplicitDate text.data
      let has_date0 := explicit_date
      let has_date := if has_time && !has_date0 then true else has_date0
      -- the source's day-rollover line, kept verbatim (its guard re-tests
      -- `has_date` after the line above already set it)
      let parsed1 := if has_time && !has_date && decide (parsed ≤ reference)
                     then parsed + usPerDay else parsed
      let start := if has_date && has_time then some parsed1 else none
      let date_part := if has_date then some (dayOf parsed1) else none
      { start := start, tokens := tokens, has_time := has_time,
        has_date := has_date, explicit_date := explicit_date,
        date := date_part, parsed := some parsed1 }

/-- `_extract_duration(text)` → `(duration minutes, matched phrase)`. -/
def extract_duration (text : String) : Option Int × Option String :=
  let s := text.data
  match searchDuration s with
  | some (i, len, v, unit) =>
    let minutes : Int := if isPre ['h'] unit.data then decScaleFloor 60 v else decScaleFloor 1 v
    (some (max minutes 1), some (String.mk ((s.drop i).take len)))
  | none =>
    match searchWordDuration s with
    | some (i, len, word, unit) =>
      let phrase := String.mk ((s.drop i).take len)
      if word == "half" && isPre "hour".data unit.data then (some 30, some phrase)
      else
        let value : Option Nat :=
          if word == "an" || word == "a" || word == "one" then some 1
          else WORD_TO_NUMBER word
        match value with
        | some v =>
          (some (if isPre ['h'] unit.data then (60 * v : Nat) else v), some phrase)
        | none => (none, none)
    | none => (none, none)

/-- `title or "Appointment"` -style Python `or` on strings ("" is falsy). -/
def pyOrS (s d : String) : String := if s == "" then d else s

def optStrTruthy : Option String → Bool
  | some s => s != ""
  | none => false

/-- `_derive_title(text, leftover_tokens, extra_remove, existing)`. -/
def derive_title (text : String) (leftover_tokens : List String)
    (extra_remove : List String) (existing : Option String) : String :=
  let base0 : List Char :=
    if leftover_tokens ≠ [] then (String.join leftover_tokens).data else text.data
  let base1 := extra_remove.foldl
    (fun b phrase => if phrase ≠ "" then pyReplaceL b phrase.data [' '] else b) base0
  let base2 := subDateword base1
  let base3 := subNumFragment base2
  let base4 := subBadChars base3
  let base5 := subStopword base4
  let cleaned := stripTitleChars (collapseWs base5)
  if cleaned == [] then
    (match existing with
     | some e => pyOrS e "Appointment"
     | none => "Appointment")
  else if optStrTruthy existing && lowerL cleaned == "appointment".data then
    existing.getD ""
  else String.mk cleaned

/-- A stored draft.  `set_state` always stores the three keys (possibly with
value `None`), so key presence is not modelled separately from `none`. -/
structure Draft where
  title : Option String
  duration : Option Int
  date : Option Int
deriving Repr, DecidableEq

def emptyDraft : Draft := ⟨none, none, none⟩

/-- The dictionary returned by `_merge_schedule_details`. -/
structure Details where
  title : String
  start : Option DT
  duration : Option Int
  date : Option Int
deriving Repr, DecidableEq

/-- `_merge_schedule_details(text, draft)`. -/
def merge_schedule_details (fp : FuzzyAbs) (reference : DT) (text : String)
    (draft : Draft) : Details :=
  let parsed := extract_datetime_details fp reference text
  let dur := extract_duration text
  let extra_remove : List String :=
    match dur.2 with
    | some phrase => [phrase]
    | none => []
  let title := derive_title text parsed.tokens extra_remove draft.title
  let stored_date := draft.date
  -- `if start and stored_date and parsed_dt and not explicit_date`
  let start1 : Option DT :=
    match parsed.start, stored_date, parsed.parsed with
    | some s, some target_date, some _ =>
      if parsed.explicit_date then some s
      else some (combineDT target_date (timeOfDay s))
    | _, _, _ => parsed.start
  -- `if not start and has_time and stored_date and parsed_dt`
  let start2 : Option DT :=
    match start1, stored_date, parsed.parsed with
    | none, some target_date, some pd =>
      if parsed.has_time then some (combineDT target_date (timeOfDay pd)) else none
    | _, _, _ => start1
  let date_iso : Option Int :=
    match parsed.date with
    | some dv => if parsed.explicit_date || !stored_date.isSome then some dv else stored_date
    | none => stored_date
  let final_duration : Option Int :=
    match dur.1 with
    | some n => if n ≠ 0 then some n else draft.duration
    | none => draft.duration
  { title := title, start := start2, duration := final_duration, date := date_iso }

/-! ## World, effects and the handler monad -/

/-- A conversation state stored by `storage.set_state`.

Modelled from the spec: `storage.get_state` / `storage.set_state` are called
by `routes.py` but are not among the files under `src/`; the spec defines
them as `ConversationStore.load(chatId) → Conversation|empty` and
`ConversationStore.save(chatId, Conversation|empty)`, the Conversation
holding `intent ∈ {None, Schedule, Reschedule}` and a `Draft`.  `set_state`
always stores both keys, so a stored state always carries an intent string
and a draft with all three keys present. -/
structure ConvState where
  intent : String
  draft : Draft
deriving Repr, DecidableEq

/-- The event dictionary produced by `calendar.create_event` /
`reschedule_event` and persisted by `storage.set_event`: `eventId`,
`summary`, `start`, `end` (named `stop` here; `end` is reserved).  The
unread `attendees` entry is omitted. -/
structure Event where
  eventId : String
  summary : String
  start : DT
  stop : DT
deriving Repr, DecidableEq

/-- External calls issued by the handler, in order. -/
inductive Effect
  | tgSend (chatId : Int) (text : String)
  | email (subject body : String)
  | calCreate (summary : String) (start : DT) (durationMinutes : Int)
  | calPatch (eventId : String) (start : DT) (durationMinutes : Int)
  | calDelete (eventId : String)
  | taskSched (chatId : Int) (eventId : String)
  | taskDel (names : List String)
  | stAppend (chatId : Int) (text : String)
  | stGetState
  | stSetState (st : Option ConvState)
  | stGetEvent
  | stSetEvent (ev : Option Event)
  | stGetTasks
  | stSetTasks (names : List String)
deriving Repr, DecidableEq

/-- Collaborator operations "directed at the calendar, task, or email
services" (conversation-store reads/writes and outbound chat messages are
not). -/
def isCollabOp : Effect → Bool
  | .email _ _ => true
  | .calCreate _ _ _ => true
  | .calPatch _ _ _ => true
  | .calDelete _ => true
  | .taskSched _ _ => true
  | .taskDel _ => true
  | _ => false

/-- The persistent world of one chat: the stored conversation state, active
event and reminder-task names (Firestore document fields), plus the log of
issued external calls and per-service call counters consulted by the failure
oracles. -/
structure World where
  state : Option ConvState
  event : Option Event
  taskNames : List String
  effects : List Effect
  stCalls : Nat
  exCalls : Nat
deriving Repr, DecidableEq

/-- A failure oracle: `some msg` makes the n-th call of that service raise
an exception rendered as `msg`. -/
def Oracle : Type := Nat → Option String

def oracleOk : Oracle := fun _ => none

/-- The handler monad: Python control flow with exceptions.  State mutated
before a raise persists, as in Python. -/
def M (α : Type) : Type := World → Except String α × World

instance : Monad M where
  pure a := fun w => (Except.ok a, w)
  bind x f := fun w =>
    match x w with
    | (Except.ok a, w2) => f a w2
    | (Except.error e, w2) => (Except.error e, w2)

/-- `raise ValueError(e)`. -/
def mThrow (e : String) : M α := fun w => (Except.error e, w)

/-- `try: x except Exception as e: h e`. -/
def mTry (x : M α) (h : String → M α) : M α := fun w =>
  match x w with
  | (Except.ok a, w2) => (Except.ok a, w2)
  | (Except.error e, w2) => h e w2

def logE (e : Effect) : M Unit := fun w =>
  (Except.ok (), { w with effects := w.effects ++ [e] })

/-- Consult the store oracle and advance the store call counter. -/
def stCheck (so : Oracle) : M Unit := fun w =>
  match so w.stCalls with
  | some msg => (Except.error msg, { w with stCalls := w.stCalls + 1 })
  | none => (Except.ok (), { w with stCalls := w.stCalls + 1 })

/-- Consult the calendar/task/email oracle and advance its counter. -/
def exCheck (eo : Oracle) : M Unit := fun w =>
  match eo w.exCalls with
  | some msg => (Except.error msg, { w with exCalls := w.exCalls + 1 })
  | none => (Except.ok (), { w with exCalls := w.exCalls + 1 })

/-- `_tg_send`: its own `try/except: pass` makes it infallible. -/
def tg_send (chatId : Int) (text : String) : M Unit := logE (.tgSend chatId text)

/-- `storage.append_message` (the message-history document writes, abstracted
to one store call; nothing reads the history back). -/
def append_message (so : Oracle) (chatId : Int) (text : String) : M Unit := do
  logE (.stAppend chatId text)
  stCheck so

/-- Modelled from the spec: `storage.get_state` = `ConversationStore.load`. -/
def get_state (so : Oracle) : M (Option ConvState) := do
  logE .stGetState
  stCheck so
  fun w => (Except.ok w.state, w)

/-- Modelled from the spec: `storage.set_state` = `ConversationStore.save`. -/
def set_state (so : Oracle) (st : Option ConvState) : M Unit := do
  logE (.stSetState st)
  stCheck so
  fun w => (Except.ok (), { w with state := st })

def get_event (so : Oracle) : M (Option Event) := do
  logE .stGetEvent
  stCheck so
  fun w => (Except.ok w.event, w)

def set_event (so : Oracle) (ev : Option Event) : M Unit := do
  logE (.stSetEvent ev)
  stCheck so
  fun w => (Except.ok (), { w with event := ev })

def get_task_names (so : Oracle) : M (List String) := do
  logE .stGetTasks
  stCheck so
  fun w => (Except.ok w.taskNames, w)

def set_task_names (so : Oracle) (names : List String) : M Unit := do
  logE (.stSetTasks names)
  stCheck so
  fun w => (Except.ok (), { w with taskNames := names })

/-- `calendar.create_event`: the returned dictionary is built from the
inputs; the opaque server id is derived from the call counter. -/
def create_event (eo : Oracle) (summary : String) (start : DT) (durationMinutes : Int) :
    M Event := do
  logE (.calCreate summary start durationMinutes)
  exCheck eo
  fun w => (Except.ok ⟨"ev" ++ toString w.exCalls, summary, start,
                       start + durationMinutes * usPerMin⟩, w)

/-- `calendar.reschedule_event`: the patched event's summary is whatever the
external calendar returns for that id (`calS`). -/
def reschedule_event (eo : Oracle) (calS : String → String) (eventId : String)
    (start : DT) (durationMinutes : Int) : M Event := do
  logE (.calPatch eventId start durationMinutes)
  exCheck eo
  pure ⟨eventId, calS eventId, start, start + durationMinutes * usPerMin⟩

def cancel_event (eo : Oracle) (eventId : String) : M Unit := do
  logE (.calDelete eventId)
  exCheck eo

/-- `tasks.schedule_reminders`: two Cloud Tasks, abstracted to one fallible
call returning two opaque names. -/
def schedule_reminders (eo : Oracle) (chatId : Int) (ev : Event) : M (List String) := do
  logE (.taskSched chatId ev.eventId)
  exCheck eo
  fun w => (Except.ok ["task" ++ toString w.exCalls ++ "-day",
                       "task" ++ toString w.exCalls ++ "-hour"], w)

/-- `tasks.delete_tasks`: every per-task exception is swallowed inside it,
so it never raises. -/
def delete_tasks (names : List String) : M Unit := logE (.taskDel names)

def send_email (eo : Oracle) (subject body : String) : M Unit := do
  logE (.email subject body)
  exCheck eo

/-! ## Handler functions of `routes.py` -/

def STOP_ACK_TEXT : String := "No problem—I\x27ll hold off on that request."

def CANCEL_ACK_TEXT : String := "Consider it done—your appointment is cancelled."

def PAST_TIME_TEXT : String :=
  "That time has already passed. Could you share a future time instead?"

def MISSING_EVENT_MOVE_TEXT : String :=
  "I couldn\x27t find an appointment to move. Let me know if you\x27d like me to set up a new one."

def SCHEDULE_USAGE_TEXT : String := "Format: /schedule YYYY-MM-DD HH:MM 30m Title"

def RESCHEDULE_USAGE_TEXT : String := "Format: /reschedule YYYY-MM-DD HH:MM [30m]"

/-- `state.get("intent") == intent` (False on an empty state). -/
def intentIs (intent : String) : Option ConvState → Bool
  | some st => st.intent == intent
  | none => false

/-- `_prompt_for_details(chat_id, draft, is_reschedule)`. -/
def prompt_for_details (chatId : Int) (draft : Draft) (is_reschedule : Bool) : M Unit :=
  let title := draft.title
  let have_title := optStrTruthy title && (title.getD "") != "Appointment"
  if is_reschedule then
    if draft.date.isSome then
      tg_send chatId "Sure — what time should I move it to on that day?"
    else
      tg_send chatId "Sure thing! When would you like me to move it to?"
  else if draft.date.isSome then
    if have_title then
      tg_send chatId ("Got it, I\x27ll take care of " ++ title.getD "" ++ ". What time should I use?")
    else
      tg_send chatId "Sounds good. What time should I set?"
  else if have_title then
    tg_send chatId ("Happy to help with " ++ title.getD "" ++ "! When should it happen?")
  else
    tg_send chatId "Happy to help! When would you like it?"

/-- `_complete_schedule(chat_id, details, is_reschedule)`.  `now` is
`_now()`, `so`/`eo`/`calS` the collaborator parameters.  Always returns
`True`, like the source. -/
def complete_schedule (so eo : Oracle) (calS : String → String) (now : DT)
    (chatId : Int) (details : Details) (is_reschedule : Bool) : M Bool :=
  let duration : Int :=
    match details.duration with
    | some n => if n == 0 then 30 else n
    | none => 30
  let title : String := pyOrS details.title "Appointment"
  let awaitDraft : Draft :=
    ⟨some title, if duration == 30 then none else some duration, details.date⟩
  let awaitState : ConvState :=
    ⟨if is_reschedule then "reschedule" else "schedule", awaitDraft⟩
  match details.start with
  | none => do
    set_state so (some awaitState)
    prompt_for_details chatId awaitDraft is_reschedule
    pure true
  | some start_dt =>
    -- tz attachment is the identity in the single-zone model
    if start_dt ≤ now then do
      set_state so (some awaitState)
      tg_send chatId PAST_TIME_TEXT
      pure true
    else
      mTry
        (if is_reschedule then do
          let ev? ← get_event so
          match ev? with
          | none => do
            tg_send chatId MISSING_EVENT_MOVE_TEXT
            set_state so none
            pure true
          | some ev => do
            let existing_title := pyOrS ev.summary title
            let updated ← reschedule_event eo calS ev.eventId start_dt duration
            set_event so (some updated)
            let tn ← get_task_names so
            delete_tasks tn
            let names ← schedule_reminders eo chatId updated
            set_task_names so names
            set_state so none
            tg_send chatId ("All set. I\x27ve moved your " ++ existing_title ++ " to " ++
              fmtDT start_dt ++ " for " ++ toString duration ++ " minutes.")
            pure true
        else do
          let ev ← create_event eo title start_dt duration
          set_event so (some ev)
          let names ← schedule_reminders eo chatId ev
          set_task_names so names
          set_state so none
          tg_send chatId ("Great! I\x27ve scheduled " ++ title ++ " on " ++
            fmtDT start_dt ++ " for " ++ toString duration ++ " minutes.")
          send_email eo "Appointment scheduled"
            (title ++ " at " ++ dtStr start_dt ++ " (" ++ toString duration ++ "m).")
          pure true)
        (fun e => do
          set_state so none
          tg_send chatId ("Hmm, I wasn\x27t able to finish that: " ++ e)
          pure true)

/-- `_handle_cancel(chat_id)`.  Always returns `True` (the source's trailing
`return False` is unreachable). -/
def handle_cancel (so eo : Oracle) (chatId : Int) : M Bool :=
  mTry
    (do
      set_state so none
      let ev? ← get_event so
      (match ev? with
       | some ev => do
         cancel_event eo ev.eventId
         let tn ← get_task_names so
         delete_tasks tn
         set_event so none
       | none => pure ())
      tg_send chatId CANCEL_ACK_TEXT
      pure true)
    (fun e => do
      tg_send chatId ("I ran into an issue cancelling that: " ++ e)
      pure true)

/-! ## Explicit literal commands -/

/-- Case-sensitive prefix drop. -/
def dropPre : List Char → List Char → Option (List Char)
  | [], s => some s
  | _ :: _, [] => none
  | p :: ps, c :: cs => if p == c then dropPre ps cs else none

/-- Exactly `k` digits (`\d{k}`) as a number. -/
def takeExact (k : Nat) (s : List Char) : Option (Nat × List Char) :=
  let p := takeDigitsUpTo k s
  if p.1.length == k then some (digitsNat p.1, p.2) else none

def expectC (c : Char) : List Char → Option (List Char)
  | x :: xs => if x == c then some xs else none
  | [] => none

/-- `\s+`: at least one whitespace character, greedy. -/
def takeWs1 (s : List Char) : Option (List Char) :=
  let w := takeWs s
  if w.1 == 0 then none else some w.2

/-- `(.*)$` on the tail of an `re.match`: `.` excludes `\n` and `$` also
matches just before a final newline. -/
def titleOfRest (r : List Char) : Option String :=
  if !(r.contains '\n') then some (String.mk r)
  else if r.getLast? == some '\n' && !(r.dropLast.contains '\n') then
    some (String.mk r.dropLast)
  else none

/-- `$` (or a single trailing newline) for the `/reschedule` grammar. -/
def endOk (r : List Char) : Bool := r == [] || r == ['\n']

/-- `re.match(r"^/schedule\s+(\d{4}-\d{2}-\d{2})\s+(\d{2}:\d{2})\s+(\d+)[mM]\s+(.*)$", text)`:
returns `(y, m, d, hh, mi, duration, title)`. -/
def matchScheduleCmd (s : List Char) : Option (Nat × Nat × Nat × Nat × Nat × Nat × String) :=
  match dropPre "/schedule".data s with
  | none => none
  | some r0 =>
  match takeWs1 r0 with
  | none => none
  | some r1 =>
  match takeExact 4 r1 with
  | none => none
  | some (y, r2) =>
  match expectC '-' r2 with
  | none => none
  | some r3 =>
  match takeExact 2 r3 with
  | none => none
  | some (mo, r4) =>
  match expectC '-' r4 with
  | none => none
  | some r5 =>
  match takeExact 2 r5 with
  | none => none
  | some (dd, r6) =>
  match takeWs1 r6 with
  | none => none
  | some r7 =>
  match takeExact 2 r7 with
  | none => none
  | some (hh, r8) =>
  match expectC ':' r8 with
  | none => none
  | some r9 =>
  match takeExact 2 r9 with
  | none => none
  | some (mi, r10) =>
  match takeWs1 r10 with
  | none => none
  | some r11 =>
  let p := takeDigits r11
  if p.1 == [] then none
  else
    match p.2 with
    | 'm' :: r12 =>
      (match takeWs1 r12 with
       | none => none
       | some r13 =>
         (titleOfRest r13).map (fun t => (y, mo, dd, hh, mi, digitsNat p.1, t)))
    | 'M' :: r12 =>
      (match takeWs1 r12 with
       | none => none
       | some r13 =>
         (titleOfRest r13).map (fun t => (y, mo, dd, hh, mi, digitsNat p.1, t)))
    | _ => none

/-- `re.match(r"^/reschedule\s+(\d{4}-\d{2}-\d{2})\s+(\d{2}:\d{2})\s*(\d+)?[mM]?$", text)`:
returns `(y, m, d, hh, mi, optional duration)`. -/
def matchRescheduleCmd (s : List Char) : Option (Nat × Nat × Nat × Nat × Nat × Option Nat) :=
  match dropPre "/reschedule".data s with
  | none => none
  | some r0 =>
  match takeWs1 r0 with
  | none => none
  | some r1 =>
  match takeExact 4 r1 with
  | none => none
  | some (y, r2) =>
  match expectC '-' r2 with
  | none => none
  | some r3 =>
  match takeExact 2 r3 with
  | none => none
  | some (mo, r4) =>
  match expectC '-' r4 with
  | none => none
  | some r5 =>
  match takeExact 2 r5 with
  | none => none
  | some (dd, r6) =>
  match takeWs1 r6 with
  | none => none
  | some r7 =>
  match takeExact 2 r7 with
  | none => none
  | some (hh, r8) =>
  match expectC ':' r8 with
  | none => none
  | some r9 =>
  match takeExact 2 r9 with
  | none => none
  | some (mi, r10) =>
  let r11 := (takeWs r10).2
  let p := takeDigits r11
  let durOpt : Option Nat := if p.1 == [] then none else some (digitsNat p.1)
  let r12 :=
    match p.2 with
    | 'm' :: rest => rest
    | 'M' :: rest => rest
    | rest => rest
  if endOk r12 then some (y, mo, dd, hh, mi, durOpt) else none

def daysInMonth (y m : Int) : Int :=
  if m == 2 then
    (if (y % 4 == 0 && y % 100 != 0) || y % 400 == 0 then 29 else 28)
  else if m == 4 || m == 6 || m == 9 || m == 11 then 30 else 31

/-- `datetime.fromisoformat(f"{date_s}T{time_s}")`: `none` models the
`ValueError` on an invalid calendar date or time. -/
def isoDT (y mo dd hh mi : Nat) : Option DT :=
  if decide (1 ≤ y) && decide (y ≤ 9999) && decide (1 ≤ mo) && decide (mo ≤ 12) &&
     decide (1 ≤ dd) && decide ((dd : Int) ≤ daysInMonth y mo) &&
     decide (hh ≤ 23) && decide (mi ≤ 59) then
    some (dtM y mo dd hh mi)
  else none

/-! ## The webhook handler -/

def HELP_TEXT : String :=
  "Commands: /schedule <YYYY-MM-DD HH:MM> <duration m> <title>; /reschedule <YYYY-MM-DD HH:MM>; /cancel"

def MISSING_EVENT_KW_TEXT : String :=
  "I couldn\x27t find an appointment to move, but I\x27m happy to set up a new one if you\x27d like."

def FALLBACK_TEXT : String :=
  "Thanks for the note! If you need to schedule, move, or cancel an appointment, just let me know how I can help."

/-- The text-message path of `telegram_webhook` (from line 407 of
`routes.py`: secret check passed, a message with a valid chat id and no
voice/audio part).  `rawText` is `message["text"]`; the returned string is
the `("ok", 200)` response body.  `_complete_schedule` and `_handle_cancel`
always return `True`, so each dispatch branch returns as the source does. -/
def telegram_webhook (fp : FuzzyAbs) (so eo : Oracle) (calS : String → String)
    (now : DT) (chatId : Int) (rawText : String) : M String := do
  let text := stripS rawText
  if text != "" then append_message so chatId text else pure ()
  if startsWithS "/help" text then do
    tg_send chatId HELP_TEXT
    pure "ok"
  else do
  let lower_text := lowerS text
  let state ← get_state so
  if state.isSome && containsAny STOP_CONVERSATION_PHRASES lower_text.data then do
    set_state so none
    tg_send chatId STOP_ACK_TEXT
    pure "ok"
  else if startsWithS "/schedule" text then do
    set_state so none
    mTry
      (match matchScheduleCmd text.data with
       | none => mThrow SCHEDULE_USAGE_TEXT
       | some (y, mo, dd, hh, mi, dur, title) =>
         match isoDT y mo dd hh mi with
         | none => mThrow "Invalid isoformat string"
         | some start_dt => do
           let ev ← create_event eo title start_dt (dur : Int)
           set_event so (some ev)
           let names ← schedule_reminders eo chatId ev
           set_task_names so names
           tg_send chatId ("All done! I\x27ve scheduled " ++ title ++ " on " ++
             fmtDT start_dt ++ " for " ++ toString dur ++ " minutes.")
           send_email eo "Appointment scheduled"
             (title ++ " at " ++ dtStr start_dt ++ " (" ++ toString dur ++ "m)."))
      (fun e => tg_send chatId ("Failed to schedule: " ++ e))
    pure "ok"
  else if startsWithS "/reschedule" text then do
    set_state so none
    mTry
      (match matchRescheduleCmd text.data with
       | none => mThrow RESCHEDULE_USAGE_TEXT
       | some (y, mo, dd, hh, mi, durOpt) => do
         let ev? ← get_event so
         match ev? with
         | none => mThrow "No existing event to reschedule."
         | some ev =>
           match isoDT y mo dd hh mi with
           | none => mThrow "Invalid isoformat string"
           | some start_dt => do
             let duration : Int :=
               match durOpt with
               | some ds => (ds : Int)
               | none => Int.fdiv (ev.stop - ev.start) usPerMin
             let updated ← reschedule_event eo calS ev.eventId start_dt duration
             set_event so (some updated)
             let tn ← get_task_names so
             delete_tasks tn
             let names ← schedule_reminders eo chatId updated
             set_task_names so names
             tg_send chatId ("Sure thing. Your appointment is now set for " ++
               fmtDT start_dt ++ " and will last " ++ toString duration ++ " minutes."))
      (fun e => tg_send chatId ("Failed to reschedule: " ++ e))
    pure "ok"
  else if startsWithS "/cancel" text then do
    let _ ← handle_cancel so eo chatId
    pure "ok"
  else if containsAny CANCEL_KEYWORDS lower_text.data then do
    let _ ← handle_cancel so eo chatId
    pure "ok"
  else do
  let draft_state : Draft :=
    match state with
    | some st => st.draft
    | none => emptyDraft
  if intentIs "schedule" state then do
    let details := merge_schedule_details fp now text draft_state
    let _ ← complete_schedule so eo calS now chatId details false
    pure "ok"
  else if intentIs "reschedule" state then do
    let _ ← get_event so
    -- `base_draft.setdefault(...)` seeding of the event's fields never
    -- fires: a draft stored by `set_state` always has all three keys
    -- present (possibly with value None), and `setdefault` only inserts
    -- *absent* keys
    let base_draft := draft_state
    let details := merge_schedule_details fp now text base_draft
    let _ ← complete_schedule so eo calS now chatId details true
    pure "ok"
  else if containsAny RESCHEDULE_KEYWORDS lower_text.data then do
    let ev? ← get_event so
    match ev? with
    | none => do
      tg_send chatId MISSING_EVENT_KW_TEXT
      set_state so none
      pure "ok"
    | some ev => do
      let base_draft : Draft :=
        ⟨some (pyOrS ev.summary "Appointment"),
         some (Int.fdiv (ev.stop - ev.start) usPerMin),
         some (dayOf ev.start)⟩
      let details := merge_schedule_details fp now text base_draft
      let _ ← complete_schedule so eo calS now chatId details true
      pure "ok"
  else if containsAny SCHEDULE_KEYWORDS lower_text.data then do
    let details := merge_schedule_details fp now text emptyDraft
    let _ ← complete_schedule so eo calS now chatId details false
    pure "ok"
  else do
    (if text != "" then tg_send chatId FALLBACK_TEXT else pure ())
    pure "ok"

/-! ## Concrete fixtures for witnesses and counterexamples -/

/-- The empty world: no conversation state, no active event. -/
def w0 : World := ⟨none, none, [], [], 0, 0⟩

/-- A fuzzy parser that always raises (`dateutil` finds nothing usable). -/
def fpNone : FuzzyAbs := fun _ _ => none

/-- An external calendar answering every patched-event summary query with
the empty string. -/
def calS0 : String → String := fun _ => ""

/-- Reference now `2024-03-01T08:00` local (spec examples). -/
def now83 : DT := dtM 2024 3 1 8 0

/-- Reference now `2024-01-01T15:00` local (spec example for "9am"). -/
def now115 : DT := dtM 2024 1 1 15 0

/-- A fuzzy parser behaving as `dateutil` does on `"9am"`: time 09:00 on the
default (today's) date, nothing left over. -/
def fp9 : FuzzyAbs := fun t d =>
  if t == "9am" then some (d + 9 * usPerHour, [""]) else none

/-- A fuzzy parser resolving `"at 9am"` to 09:00 on the default date,
leaving `"at "` unconsumed. -/
def fpAt9 : FuzzyAbs := fun t d =>
  if t == "at 9am" then some (d + 9 * usPerHour, ["at "]) else none

/-- The fuzzy parser the spec's C8 example presumes: the message resolves to
`2024-03-02T10:00` (= "tomorrow at 10" from `2024-03-01`), consuming the
`10`. -/
def fp8 : FuzzyAbs := fun t _ =>
  if t == "schedule team sync tomorrow at 10 for an hour" then
    some (dtM 2024 3 2 10 0, ["schedule team sync tomorrow at  for an hour"])
  else none

/-- An open schedule draft. -/
def stSched : ConvState := ⟨"schedule", ⟨some "team sync", some 60, some (civil 2024 3 2)⟩⟩

/-- An open reschedule draft (date known, time missing). -/
def stRes : ConvState := ⟨"reschedule", ⟨some "dentist", some 30, some (civil 2024 3 5)⟩⟩

/-- An active appointment. -/
def ev1 : Event := ⟨"evX", "dentist", dtM 2024 3 5 10 0, dtM 2024 3 5 10 30⟩

/-- World with an open schedule draft and no appointment. -/
def wDraft : World := ⟨some stSched, none, [], [], 0, 0⟩

/-- World with an open schedule draft and an active appointment. -/
def wDraftEv : World := ⟨some stSched, some ev1, ["t1"], [], 0, 0⟩

/-- World with a reschedule draft awaiting a time and no stored appointment. -/
def wRes : World := ⟨some stRes, none, [], [], 0, 0⟩

/-- A store oracle whose first call fails. -/
def soFail : Oracle := fun n => if n == 0 then some "db down" else none

/-- The awaiting-state draft `_complete_schedule` persists when it cannot
finalize. -/
def awaitDraftOf (details : Details) : Draft :=
  let duration : Int :=
    match details.duration with
    | some n => if n == 0 then 30 else n
    | none => 30
  ⟨some (pyOrS details.title "Appointment"),
   if duration == 30 then none else some duration, details.date⟩

def awaitStateOf (details : Details) (is_reschedule : Bool) : ConvState :=
  ⟨if is_reschedule then "reschedule" else "schedule", awaitDraftOf details⟩

/-- `x` never raises. -/
def NoRaise {α : Type} (x : M α) : Prop := ∀ w, ((x w).1).isOk = true

/-- `x` always returns the normal `("ok", 200)` response. -/
def OkOk (x : M String) : Prop := ∀ w, (x w).1 = Except.ok "ok"

/-- The effects a run appended to world `w`. -/
def newEffects (w : World) (r : Except String α × World) : List Effect :=
  r.2.effects.drop w.effects.length

/-! ## Run lemmas for the monad and the collaborator operations -/

theorem bind_run {α β : Type} (x : M α) (f : α → M β) (w : World) :
    (x >>= f) w =
      match x w with
      | (Except.ok a, w2) => f a w2
      | (Except.error e, w2) => (Except.error e, w2) := rfl

theorem pure_run {α : Type} (a : α) (w : World) : (pure a : M α) w = (Except.ok a, w) := rfl

theorem logE_run (e : Effect) (w : World) :
    logE e w = (Except.ok (), { w with effects := w.effects ++ [e] }) := rfl

theorem stCheck_run {so : Oracle} (h : ∀ n, so n = none) (w : World) :
    stCheck so w = (Except.ok (), { w with stCalls := w.stCalls + 1 }) := by
  simp [stCheck, h]

theorem exCheck_run {eo : Oracle} (h : ∀ n, eo n = none) (w : World) :
    exCheck eo w = (Except.ok (), { w with exCalls := w.exCalls + 1 }) := by
  simp [exCheck, h]

theorem tg_send_run (c : Int) (t : String) (w : World) :
    tg_send c t w = (Except.ok (), { w with effects := w.effects ++ [Effect.tgSend c t] }) := rfl

theorem append_message_run {so : Oracle} (h : ∀ n, so n = none) (c : Int) (t : String)
    (w : World) :
    append_message so c t w =
      (Except.ok (),
       { w with effects := w.effects ++ [Effect.stAppend c t], stCalls := w.stCalls + 1 }) := by
  simp [append_message, bind_run, logE_run, stCheck_run h]

theorem get_state_run {so : Oracle} (h : ∀ n, so n = none) (w : World) :
    get_state so w =
      (Except.ok w.state,
       { w with effects := w.effects ++ [Effect.stGetState], stCalls := w.stCalls + 1 }) := by
  simp [get_state, bind_run, logE_run, stCheck_run h]

theorem set_state_run {so : Oracle} (h : ∀ n, so n = none) (st : Option ConvState) (w : World) :
    set_state so st w =
      (Except.ok (),
       { w with state := st, effects := w.effects ++ [Effect.stSetState st],
                stCalls := w.stCalls + 1 }) := by
  simp [set_state, bind_run, logE_run, stCheck_run h]

theorem get_event_run {so : Oracle} (h : ∀ n, so n = none) (w : World) :
    get_event so w =
      (Except.ok w.event,
       { w with effects := w.effects ++ [Effect.stGetEvent], stCalls := w.stCalls + 1 }) := by
  simp [get_event, bind_run, logE_run, stCheck_run h]

theorem set_event_run {so : Oracle} (h : ∀ n, so n = none) (ev : Option Event) (w : World) :
    set_event so ev w =
      (Except.ok (),
       { w with event := ev, effects := w.effects ++ [Effect.stSetEvent ev],
                stCalls := w.stCalls + 1 }) := by
  simp [set_event, bind_run, logE_run, stCheck_run h]

theorem get_task_names_run {so : Oracle} (h : ∀ n, so n = none) (w : World) :
    get_task_names so w =
      (Except.ok w.taskNames,
       { w with effects := w.effects ++ [Effect.stGetTasks], stCalls := w.stCalls + 1 }) := by
  simp [get_task_names, bind_run, logE_run, stCheck_run h]

theorem set_task_names_run {so : Oracle} (h : ∀ n, so n = none) (names : List String)
    (w : World) :
    set_task_names so names w =
      (Except.ok (),
       { w with taskNames := names, effects := w.effects ++ [Effect.stSetTasks names],
                stCalls := w.stCalls + 1 }) := by
  simp [set_task_names, bind_run, logE_run, stCheck_run h]

theorem cancel_event_run {eo : Oracle} (h : ∀ n, eo n = none) (eventId : String) (w : World) :
    cancel_event eo eventId w =
      (Except.ok (),
       { w with effects := w.effects ++ [Effect.calDelete eventId],
                exCalls := w.exCalls + 1 }) := by
  simp [cancel_event, bind_run, logE_run, exCheck_run h]

theorem delete_tasks_run (names : List String) (w : World) :
    delete_tasks names w =
      (Except.ok (), { w with effects := w.effects ++ [Effect.taskDel names] }) := rfl

/-! ## No-raise machinery -/

theorem noRaise_pure {α : Type} (a : α) : NoRaise (pure a : M α) := fun _ => rfl

theorem noRaise_bind {α β : Type} {x : M α} {f : α → M β}
    (hx : NoRaise x) (hf : ∀ a, NoRaise (f a)) : NoRaise (x >>= f) := by
  intro w
  rw [bind_run]
  rcases h : x w with ⟨r, w2⟩
  cases r with
  | ok a => exact hf a w2
  | error e => have := hx w; rw [h] at this; simp [Except.isOk, Except.toBool] at this

theorem noRaise_mTry {α : Type} {x : M α} {h : String → M α}
    (hh : ∀ e, NoRaise (h e)) : NoRaise (mTry x h) := by
  intro w
  unfold mTry
  rcases hx : x w with ⟨r, w2⟩
  cases r with
  | ok a => rfl
  | error e => exact hh e w2

theorem noRaise_ite {α : Type} {c : Prop} [Decidable c] {x y : M α}
    (hx : NoRaise x) (hy : NoRaise y) : NoRaise (if c then x else y) := by
  split
  · exact hx
  · exact hy

theorem noRaise_logE (e : Effect) : NoRaise (logE e) := fun _ => rfl

theorem noRaise_tg_send (c : Int) (t : String) : NoRaise (tg_send c t) := fun _ => rfl

theorem noRaise_delete_tasks (names : List String) : NoRaise (delete_tasks names) :=
  fun _ => rfl

theorem noRaise_append_message {so : Oracle} (h : ∀ n, so n = none) (c : Int) (t : String) :
    NoRaise (append_message so c t) := by
  intro w; rw [append_message_run h]; rfl

theorem noRaise_get_state {so : Oracle} (h : ∀ n, so n = none) : NoRaise (get_state so) := by
  intro w; rw [get_state_run h]; rfl

theorem noRaise_set_state {so : Oracle} (h : ∀ n, so n = none) (st : Option ConvState) :
    NoRaise (set_state so st) := by
  intro w; rw [set_state_run h]; rfl

theorem noRaise_get_event {so : Oracle} (h : ∀ n, so n = none) : NoRaise (get_event so) := by
  intro w; rw [get_event_run h]; rfl

theorem noRaise_prompt_for_details (c : Int) (draft : Draft) (r : Bool) :
    NoRaise (prompt_for_details c draft r) := by
  intro w
  unfold prompt_for_details
  repeat' split
  all_goals rfl

theorem noRaise_complete_schedule {so : Oracle} (h : ∀ n, so n = none)
    (eo : Oracle) (calS : String → String) (now : DT) (chatId : Int)
    (details : Details) (is_reschedule : Bool) :
    NoRaise (complete_schedule so eo calS now chatId details is_reschedule) := by
  obtain ⟨dtitle, dstart, ddur, ddate⟩ := details
  cases dstart with
  | none =>
    simp only [complete_schedule]
    exact noRaise_bind (noRaise_set_state h _)
      (fun _ => noRaise_bind (noRaise_prompt_for_details _ _ _) (fun _ => noRaise_pure _))
  | some s =>
    simp only [complete_schedule]
    apply noRaise_ite
    · exact noRaise_bind (noRaise_set_state h _)
        (fun _ => noRaise_bind (noRaise_tg_send _ _) (fun _ => noRaise_pure _))
    · -- the try-block: its except-handler never raises under a reliable store
      apply noRaise_mTry
      intro e
      exact noRaise_bind (noRaise_set_state h _)
        (fun _ => noRaise_bind (noRaise_tg_send _ _) (fun _ => noRaise_pure _))

theorem noRaise_handle_cancel (so eo : Oracle) (chatId : Int) :
    NoRaise (handle_cancel so eo chatId) := by
  unfold handle_cancel
  apply noRaise_mTry
  intro e
  exact noRaise_bind (noRaise_tg_send _ _) (fun _ => noRaise_pure _)

theorem okok_pure : OkOk (pure "ok") := fun _ => rfl

theorem okok_bind {α : Type} {x : M α} {f : α → M String}
    (hx : NoRaise x) (hf : ∀ a, OkOk (f a)) : OkOk (x >>= f) := by
  intro w
  rw [bind_run]
  rcases h : x w with ⟨r, w2⟩
  cases r with
  | ok a => exact hf a w2
  | error e => have := hx w; rw [h] at this; simp [Except.isOk, Except.toBool] at this

theorem okok_ite {c : Prop} [Decidable c] {x y : M String}
    (hx : OkOk x) (hy : OkOk y) : OkOk (if c then x else y) := by
  split
  · exact hx
  · exact hy

/-! ## Claim C1 -/

/-- C1 (corrected): a conversation-store failure — a `CollaboratorFailure` in
the spec's taxonomy — raised while recording the inbound message (line 410,
outside every `try` block) propagates out of the handler, refuting "no
exception of any kind propagates past the handler boundary". -/
theorem c1_counterexample :
    (telegram_webhook fpNone soFail oracleOk calS0 now83 7 "hello there" w0).1 =
      Except.error "db down" := rfl

set_option maxHeartbeats 2000000 in
set_option maxRecDepth 4000 in
/-- C1 (amended): for every inbound text message, conversation state and
calendar/task/email failure oracle, **provided the conversation-store
operations succeed**, the webhook handler terminates normally and returns
its `("ok", 200)` response: `ParseFailure`, `MissingContext`, `FormatError`
and every calendar/task/email `CollaboratorFailure` are terminal for the
current message and never propagate past the handler boundary. -/
theorem c1_store_reliable_no_exception (fp : FuzzyAbs) (so eo : Oracle)
    (calS : String → String) (now : DT) (chatId : Int) (rawText : String) (w : World)
    (hso : ∀ n, so n = none) :
    (telegram_webhook fp so eo calS now chatId rawText w).1 = Except.ok "ok" := by
  have main : OkOk (telegram_webhook fp so eo calS now chatId rawText) := by
    simp only [telegram_webhook]
    repeat
      first
      | exact okok_pure
      | exact noRaise_pure _
      | exact noRaise_tg_send _ _
      | exact noRaise_append_message hso _ _
      | exact noRaise_get_state hso
      | exact noRaise_set_state hso _
      | exact noRaise_get_event hso
      | exact noRaise_complete_schedule hso _ _ _ _ _ _
      | exact noRaise_handle_cancel _ _ _
      | apply okok_ite
      | apply noRaise_ite
      | apply okok_bind
      | apply noRaise_mTry
      | (intro a; try rcases a with _ | _)
      | dsimp only
  exact main w

/-- C1 witness: the amended theorem applied to a concrete message and the
always-succeeding store oracle. -/
theorem c1_witness :
    (telegram_webhook fpNone oracleOk oracleOk calS0 now83 7 "hello there" w0).1 =
      Except.ok "ok" :=
  c1_store_reliable_no_exception fpNone oracleOk oracleOk calS0 now83 7 "hello there" w0
    (fun _ => rfl)

/-! ## Claim C2 -/

/-- A time-only extraction (relative patterns fail, the fuzzy parse yields
`p`, the time regex matches, the explicit-date regex does not) always
returns `start = p` with `date = p.date()`: the day-roll-forward line is
dead code, because the line above it set `has_date := true` whenever
`has_time ∧ ¬has_date`, making the roll guard unsatisfiable. -/
theorem extract_time_only (fp : FuzzyAbs) (reference : DT) (text : String)
    (p : DT) (tk : List String)
    (hrel : parse_relative_datetime text reference = none)
    (hfp : fp text (midnightOf reference) = some (p, tk))
    (ht : searchTimeComponent text.data = true)
    (hnd : searchExplicitDate text.data = false) :
    extract_datetime_details fp reference text =
      { start := some p, tokens := tk, has_time := true, has_date := true,
        explicit_date := false, date := some (dayOf p), parsed := some p } := by
  simp only [extract_datetime_details, hrel, hfp, ht, hnd]
  simp

/-- C2 (code_bug evidence): whenever the extractor finds a time but no
explicit date, and the fuzzy-parsed instant `p` is not strictly after the
reference "now", the resolved date stays `p.date()` (today) — it is *not*
rolled forward by one day as the spec states, because the roll branch is
unreachable. -/
theorem c2_rollover_never_fires (fp : FuzzyAbs) (reference : DT) (text : String)
    (p : DT) (tk : List String)
    (hrel : parse_relative_datetime text reference = none)
    (hfp : fp text (midnightOf reference) = some (p, tk))
    (ht : searchTimeComponent text.data = true)
    (hnd : searchExplicitDate text.data = false)
    (_hpast : p ≤ reference) :
    extract_datetime_details fp reference text =
      { start := some p, tokens := tk, has_time := true, has_date := true,
        explicit_date := false, date := some (dayOf p), parsed := some p } :=
  extract_time_only fp reference text p tk hrel hfp ht hnd

/-- C2 witness, the spec's own example: with now = `2024-01-01T15:00` and a
fuzzy parse of "9am" giving `2024-01-01T09:00`, the resolved date stays
`2024-01-01` — not the `2024-01-02` the spec requires. -/
theorem c2_witness :
    extract_datetime_details fp9 now115 "9am" =
      { start := some (dtM 2024 1 1 9 0), tokens := [""], has_time := true,
        has_date := true, explicit_date := false, date := some (civil 2024 1 1),
        parsed := some (dtM 2024 1 1 9 0) } := by
  have h := c2_rollover_never_fires fp9 now115 "9am" (dtM 2024 1 1 9 0) [""]
    (by decide) (by decide) (by decide) (by decide) (by decide)
  rw [h]
  decide

/-! ## Claim C3 -/

/-- The relative-offset searches depend only on the text, so the resolved
start shifts with the reference: `resolved-start = now + offset` with the
offset a function of the text alone. -/
theorem parse_relative_shift (text : String) (r1 r2 : DT) (s : DT) (tk : List String)
    (h : parse_relative_datetime text r1 = some (s, tk)) :
    parse_relative_datetime text r2 = some (s - r1 + r2, tk) := by
  unfold parse_relative_datetime at h ⊢
  dsimp only at h ⊢
  cases h1 : searchRelMinutes text.data with
  | some r =>
    obtain ⟨i, len, v⟩ := r
    rw [h1] at h
    dsimp only at h
    rw [Option.some.injEq, Prod.mk.injEq] at h ⊢
    obtain ⟨hs, htk⟩ := h
    refine ⟨?_, htk⟩
    rw [← hs]
    ring
  | none =>
    rw [h1] at h
    dsimp only at h
    cases h2 : searchRelHours text.data with
    | some r =>
      obtain ⟨i, len, v⟩ := r
      rw [h2] at h
      dsimp only at h
      rw [Option.some.injEq, Prod.mk.injEq] at h ⊢
      obtain ⟨hs, htk⟩ := h
      refine ⟨?_, htk⟩
      rw [← hs]
      ring
    | none =>
      rw [h2] at h
      dsimp only at h
      cases h3 : searchRelHalfHour text.data with
      | some r =>
        obtain ⟨i, len, u⟩ := r
        rw [h3] at h
        dsimp only at h
        rw [Option.some.injEq, Prod.mk.injEq] at h ⊢
        obtain ⟨hs, htk⟩ := h
        exact ⟨by rw [← hs]; ring, htk⟩
      | none =>
        rw [h3] at h
        dsimp only at h
        cases h4 : searchRelSingleHour text.data with
        | some r =>
          obtain ⟨i, len, u⟩ := r
          rw [h4] at h
          dsimp only at h
          rw [Option.some.injEq, Prod.mk.injEq] at h ⊢
          obtain ⟨hs, htk⟩ := h
          exact ⟨by rw [← hs]; ring, htk⟩
        | none =>
          rw [h4] at h
          dsimp only at h
          cases h5 : searchRelWordHours text.data with
          | some r =>
            obtain ⟨i, len, word⟩ := r
            rw [h5] at h
            dsimp only at h
            cases h6 : WORD_TO_NUMBER word with
            | some hours =>
              rw [h6] at h
              dsimp only at h
              dsimp only
              rw [h6]
              dsimp only
              rw [Option.some.injEq, Prod.mk.injEq] at h ⊢
              obtain ⟨hs, htk⟩ := h
              refine ⟨?_, htk⟩
              rw [← hs]
              ring
            | none =>
              rw [h6] at h
              exact absurd h (by simp)
          | none =>
            rw [h5] at h
            exact absurd h (by simp)

/-- C3 (confirmed): whenever a relative-offset pattern matches (relative
parse succeeds with start `s` and leftover tokens `tk`), the extractor —
for *every* fuzzy absolute parser, i.e. with the relative patterns taking
priority over the fuzzy parse — returns `resolved-start = s` with both date
and time marked present; and `s = now + offset` where the offset depends
only on the text, so at any other reference `r2` the same text resolves to
`s - now + r2`.  The witness instantiates the spec's three examples at
now = `2024-03-01T08:00`. -/
theorem c3_relative_offsets (fp : FuzzyAbs) (reference reference2 : DT) (text : String)
    (s : DT) (tk : List String)
    (h : parse_relative_datetime text reference = some (s, tk)) :
    extract_datetime_details fp reference text =
      { start := some s, tokens := tk, has_time := true, has_date := true,
        explicit_date := true, date := some (dayOf s), parsed := none }
    ∧ parse_relative_datetime text reference2 = some (s - reference + reference2, tk) :=
  ⟨by simp only [extract_datetime_details, h], parse_relative_shift text reference reference2 s tk h⟩

/-- C3 witness: "in 30 minutes" and "in half an hour" resolve to
`2024-03-01T08:30`, "in 2 hours" to `2024-03-01T10:00` (for the
always-failing fuzzy parser — the fuzzy parse is never consulted), and the
same "in 30 minutes" at reference `2024-05-05T12:00` resolves to
`2024-05-05T12:30`. -/
theorem c3_witness :
    (extract_datetime_details fpNone now83 "in 30 minutes").start =
      some (dtM 2024 3 1 8 30)
    ∧ (extract_datetime_details fpNone now83 "in half an hour").start =
      some (dtM 2024 3 1 8 30)
    ∧ (extract_datetime_details fpNone now83 "in 2 hours").start =
      some (dtM 2024 3 1 10 0)
    ∧ parse_relative_datetime "in 30 minutes" (dtM 2024 5 5 12 0) =
      some (dtM 2024 5 5 12 30, ["", ""]) := by
  refine ⟨?_, ?_, ?_, ?_⟩
  · rw [(c3_relative_offsets fpNone now83 now83 "in 30 minutes" (dtM 2024 3 1 8 30)
      ["", ""] (by decide)).1]
  · rw [(c3_relative_offsets fpNone now83 now83 "in half an hour" (dtM 2024 3 1 8 30)
      ["", ""] (by decide)).1]
  · rw [(c3_relative_offsets fpNone now83 now83 "in 2 hours" (dtM 2024 3 1 10 0)
      ["", ""] (by decide)).1]
  · exact ((c3_relative_offsets fpNone now83 (dtM 2024 5 5 12 0) "in 30 minutes"
      (dtM 2024 3 1 8 30) ["", ""] (by decide)).2).trans (by decide)

/-! ## Claim C4 -/

theorem timeOfDay_bounds (q : DT) : 0 ≤ timeOfDay q ∧ timeOfDay q < usPerDay := by
  simp only [timeOfDay, dayOf, usPerDay]
  rw [Int.fdiv_eq_ediv _ (by norm_num)]
  constructor <;> omega

theorem dayOf_combineDT (d : Int) (t : Int) (h0 : 0 ≤ t) (h1 : t < usPerDay) :
    dayOf (combineDT d t) = d := by
  simp only [dayOf, combineDT, usPerDay] at h1 ⊢
  rw [Int.fdiv_eq_ediv _ (by norm_num)]
  omega

theorem timeOfDay_combineDT (d : Int) (t : Int) (h0 : 0 ≤ t) (h1 : t < usPerDay) :
    timeOfDay (combineDT d t) = t := by
  have hd := dayOf_combineDT d t h0 h1
  simp only [timeOfDay, combineDT] at hd ⊢
  rw [hd]
  omega

/-- C4 (confirmed): in a conversation whose draft stores a date `D` (from an
earlier date-only message) and whose next message yields only a time (no
relative pattern, fuzzy parse `p`, time regex matches, explicit-date regex
does not), the merger produces `resolved-start = combine(D, p.time)`: its
date component is the stored date `D`, its time-of-day is the newly
extracted time, and the merged draft date stays `D`. -/
theorem c4_merge_stored_date_with_new_time (fp : FuzzyAbs) (reference : DT)
    (text : String) (draft : Draft) (D : Int) (p : DT) (tk : List String)
    (hd : draft.date = some D)
    (hrel : parse_relative_datetime text reference = none)
    (hfp : fp text (midnightOf reference) = some (p, tk))
    (ht : searchTimeComponent text.data = true)
    (hnd : searchExplicitDate text.data = false) :
    (merge_schedule_details fp reference text draft).start =
      some (combineDT D (timeOfDay p))
    ∧ (∀ r, (merge_schedule_details fp reference text draft).start = some r →
        dayOf r = D ∧ timeOfDay r = timeOfDay p)
    ∧ (merge_schedule_details fp reference text draft).date = some D := by
  have hex := extract_time_only fp reference text p tk hrel hfp ht hnd
  have hmain : (merge_schedule_details fp reference text draft).start =
      some (combineDT D (timeOfDay p)) := by
    simp only [merge_schedule_details, hex, hd]
    simp
  have hdate : (merge_schedule_details fp reference text draft).date = some D := by
    simp only [merge_schedule_details, hex, hd]
    simp
  refine ⟨hmain, ?_, hdate⟩
  intro r hr
  rw [hmain] at hr
  obtain ⟨h0, h1⟩ := timeOfDay_bounds p
  cases hr
  exact ⟨dayOf_combineDT D _ h0 h1, timeOfDay_combineDT D _ h0 h1⟩

/-- C4 witness: stored date `2024-03-05`, second message "at 9am" parsed to
time 09:00 ⇒ one resolved start `2024-03-05T09:00`. -/
theorem c4_witness :
    (merge_schedule_details fpAt9 now83 "at 9am" ⟨some "sync", none, some (civil 2024 3 5)⟩).start
      = some (dtM 2024 3 5 9 0) := by
  have h := (c4_merge_stored_date_with_new_time fpAt9 now83 "at 9am"
    ⟨some "sync", none, some (civil 2024 3 5)⟩ (civil 2024 3 5)
    (dtM 2024 3 1 9 0) ["at "] (by decide) (by decide) (by decide) (by decide) (by decide)).1
  rw [h]
  decide

/-! ## Claim C5 -/

/-- C5 (confirmed): whenever the merged details carry a resolved start `s`
that is not strictly after "now", `_complete_schedule` — even on an
otherwise complete draft — issues no calendar, task or email operation,
persists the Awaiting state (intent schedule/reschedule with the draft),
asks the user for a future time, and returns normally. -/
theorem c5_past_start_never_finalizes (so eo : Oracle) (calS : String → String)
    (now : DT) (chatId : Int) (details : Details) (is_reschedule : Bool)
    (w : World) (s : DT)
    (hso : ∀ n, so n = none)
    (hs : details.start = some s)
    (hpast : s ≤ now) :
    complete_schedule so eo calS now chatId details is_reschedule w =
      (Except.ok true,
       { w with state := some (awaitStateOf details is_reschedule),
                effects := w.effects ++
                  [Effect.stSetState (some (awaitStateOf details is_reschedule)),
                   Effect.tgSend chatId PAST_TIME_TEXT],
                stCalls := w.stCalls + 1 })
    ∧ (newEffects w (complete_schedule so eo calS now chatId details is_reschedule w)).all
        (fun e => !isCollabOp e) = true := by
  obtain ⟨t0, st0, du0, dd0⟩ := details
  dsimp only at hs
  subst hs
  have main : complete_schedule so eo calS now chatId ⟨t0, some s, du0, dd0⟩ is_reschedule w =
      (Except.ok true,
       { w with state := some (awaitStateOf ⟨t0, some s, du0, dd0⟩ is_reschedule),
                effects := w.effects ++
                  [Effect.stSetState (some (awaitStateOf ⟨t0, some s, du0, dd0⟩ is_reschedule)),
                   Effect.tgSend chatId PAST_TIME_TEXT],
                stCalls := w.stCalls + 1 }) := by
    simp only [complete_schedule, awaitStateOf, awaitDraftOf]
    rw [if_pos hpast]
    simp only [bind_run, set_state_run hso, tg_send_run, pure_run]
    simp
  refine ⟨main, ?_⟩
  rw [main]
  simp only [newEffects, List.drop_left]
  simp [isCollabOp]

/-! ## Claim C6 -/

/-- Behaviour of `_complete_schedule` for a reschedule when no appointment
is stored: it returns normally, never creates or touches an appointment,
issues no calendar/task/email operation, and — whenever the merged details
carry a strictly-future resolved start — sends the `MissingContext` message
and clears the conversation state. -/
theorem complete_res_no_event (so eo : Oracle) (calS : String → String)
    (now : DT) (chatId : Int) (d : Details) (w : World)
    (hso : ∀ n, so n = none) (hev : w.event = none) :
    ((complete_schedule so eo calS now chatId d true w).1 = Except.ok true)
    ∧ (complete_schedule so eo calS now chatId d true w).2.event = none
    ∧ (complete_schedule so eo calS now chatId d true w).2.effects =
        w.effects ++ newEffects w (complete_schedule so eo calS now chatId d true w)
    ∧ (newEffects w (complete_schedule so eo calS now chatId d true w)).all
        (fun e => !isCollabOp e) = true
    ∧ (∀ s, d.start = some s → now < s →
        (complete_schedule so eo calS now chatId d true w).2.state = none
        ∧ Effect.tgSend chatId MISSING_EVENT_MOVE_TEXT ∈
            newEffects w (complete_schedule so eo calS now chatId d true w)) := by
  obtain ⟨t0, st0, du0, dd0⟩ := d
  cases st0 with
  | none =>
    cases dd0 with
    | none =>
      have main : complete_schedule so eo calS now chatId ⟨t0, none, du0, none⟩ true w =
          (Except.ok true,
           { w with state := some (awaitStateOf ⟨t0, none, du0, none⟩ true),
                    effects := w.effects ++
                      [Effect.stSetState (some (awaitStateOf ⟨t0, none, du0, none⟩ true)),
                       Effect.tgSend chatId "Sure thing! When would you like me to move it to?"],
                    stCalls := w.stCalls + 1 }) := by
        simp only [complete_schedule, awaitStateOf, awaitDraftOf, prompt_for_details]
        simp only [bind_run, set_state_run hso, tg_send_run, pure_run]
        simp [bind_run, set_state_run hso, tg_send_run, pure_run]
      rw [main]
      refine ⟨rfl, hev, by simp [newEffects, List.drop_left], ?_, ?_⟩
      · simp only [newEffects, List.drop_left]
        simp [isCollabOp]
      · intro s hs'
        exact absurd hs' (by simp)
    | some dd =>
      have main : complete_schedule so eo calS now chatId ⟨t0, none, du0, some dd⟩ true w =
          (Except.ok true,
           { w with state := some (awaitStateOf ⟨t0, none, du0, some dd⟩ true),
                    effects := w.effects ++
                      [Effect.stSetState (some (awaitStateOf ⟨t0, none, du0, some dd⟩ true)),
                       Effect.tgSend chatId "Sure — what time should I move it to on that day?"],
                    stCalls := w.stCalls + 1 }) := by
        simp only [complete_schedule, awaitStateOf, awaitDraftOf, prompt_for_details]
        simp only [bind_run, set_state_run hso, tg_send_run, pure_run]
        simp [bind_run, set_state_run hso, tg_send_run, pure_run]
      rw [main]
      refine ⟨rfl, hev, by simp [newEffects, List.drop_left], ?_, ?_⟩
      · simp only [newEffects, List.drop_left]
        simp [isCollabOp]
      · intro s hs'
        exact absurd hs' (by simp)
  | some s =>
    by_cases hc : s ≤ now
    · have main : complete_schedule so eo calS now chatId ⟨t0, some s, du0, dd0⟩ true w =
          (Except.ok true,
           { w with state := some (awaitStateOf ⟨t0, some s, du0, dd0⟩ true),
                    effects := w.effects ++
                      [Effect.stSetState (some (awaitStateOf ⟨t0, some s, du0, dd0⟩ true)),
                       Effect.tgSend chatId PAST_TIME_TEXT],
                    stCalls := w.stCalls + 1 }) := by
        simp only [complete_schedule, awaitStateOf, awaitDraftOf]
        rw [if_pos hc]
        simp only [bind_run, set_state_run hso, tg_send_run, pure_run]
        simp [bind_run, set_state_run hso, tg_send_run, pure_run]
      rw [main]
      refine ⟨rfl, hev, by simp [newEffects, List.drop_left], ?_, ?_⟩
      · simp only [newEffects, List.drop_left]
        simp [isCollabOp]
      · intro s2 hs2 hnow
        rw [Option.some.injEq] at hs2
        subst hs2
        exact absurd hnow (not_lt.mpr hc)
    · have main : complete_schedule so eo calS now chatId ⟨t0, some s, du0, dd0⟩ true w =
          (Except.ok true,
           { w with state := none,
                    effects := w.effects ++
                      [Effect.stGetEvent, Effect.tgSend chatId MISSING_EVENT_MOVE_TEXT,
                       Effect.stSetState none],
                    stCalls := w.stCalls + 2 }) := by
        simp only [complete_schedule]
        rw [if_neg hc]
        simp [mTry, bind_run, get_event_run hso, hev, tg_send_run, set_state_run hso,
          pure_run]
      rw [main]
      refine ⟨rfl, hev, by simp [newEffects, List.drop_left], ?_, ?_⟩
      · simp only [newEffects, List.drop_left]
        simp [isCollabOp]
      · intro s2 hs2 hnow
        refine ⟨rfl, ?_⟩
        simp [newEffects, List.drop_left]

/-- Composing effect logs: if a middle world extends `w` by `mid` and a run
from the middle world extends its log, the whole run's new effects are `mid`
followed by the run's. -/
theorem newEffects_chain {α : Type} (w wmid : World) (r : Except String α × World)
    (mid : List Effect)
    (hmid : wmid.effects = w.effects ++ mid)
    (hext : r.2.effects = wmid.effects ++ newEffects wmid r) :
    newEffects w r = mid ++ newEffects wmid r := by
  have hgen : ∀ X : List Effect, r.2.effects = wmid.effects ++ X →
      List.drop w.effects.length r.2.effects = mid ++ X := by
    intro X hX
    rw [hX, hmid, List.append_assoc, List.drop_left]
  exact hgen _ hext

/-- C6 (corrected): a reschedule-intent *continuation* whose message does
not carry a usable future time does **not** produce the MissingContext
outcome: with conversation state `{intent: reschedule, draft: {date:
2024-03-05}}` and no stored appointment, the message "soon" leaves the
conversation in its Awaiting state (not cleared) and sends a clarifying
prompt, not the missing-appointment message — refuting "the outcome is a
terminal explanatory message and the conversation state is cleared" as
stated for every such chat. (No appointment is created either way.) -/
theorem c6_counterexample :
    ((telegram_webhook fpNone oracleOk oracleOk calS0 now83 7 "soon" wRes).2.state).isSome = true
    ∧ ((telegram_webhook fpNone oracleOk oracleOk calS0 now83 7 "soon" wRes).2.effects.all
        (fun e => !(e == Effect.tgSend 7 MISSING_EVENT_MOVE_TEXT
                    || e == Effect.tgSend 7 MISSING_EVENT_KW_TEXT))) = true := by
  decide

set_option maxHeartbeats 1000000 in
/-- C6 (amended): with no active appointment stored for the chat, (a) a
keyword-triggered reschedule message yields exactly the terminal
MissingContext message with the conversation state cleared and no
calendar/task/email operation; (b) a reschedule continuation never creates
an appointment and issues no calendar/task/email operation, and whenever its
merged draft resolves to a strictly-future start it too ends in the
MissingContext message with the state cleared — but a continuation without
such a start prompts and remains Awaiting instead. -/
theorem c6_reschedule_missing_context :
    (∀ (fp : FuzzyAbs) (so eo : Oracle) (calS : String → String) (now : DT)
       (chatId : Int) (rawText : String) (w : World),
      (∀ n, so n = none) →
      (stripS rawText != "") = true →
      startsWithS "/help" (stripS rawText) = false →
      (w.state.isSome && containsAny STOP_CONVERSATION_PHRASES (lowerS (stripS rawText)).data) = false →
      startsWithS "/schedule" (stripS rawText) = false →
      startsWithS "/reschedule" (stripS rawText) = false →
      startsWithS "/cancel" (stripS rawText) = false →
      containsAny CANCEL_KEYWORDS (lowerS (stripS rawText)).data = false →
      intentIs "schedule" w.state = false →
      intentIs "reschedule" w.state = false →
      containsAny RESCHEDULE_KEYWORDS (lowerS (stripS rawText)).data = true →
      w.event = none →
      telegram_webhook fp so eo calS now chatId rawText w =
        (Except.ok "ok",
         { w with state := none,
                  effects := w.effects ++
                    [Effect.stAppend chatId (stripS rawText), Effect.stGetState,
                     Effect.stGetEvent, Effect.tgSend chatId MISSING_EVENT_KW_TEXT,
                     Effect.stSetState none],
                  stCalls := w.stCalls + 4 }))
    ∧ (∀ (fp : FuzzyAbs) (so eo : Oracle) (calS : String → String) (now : DT)
         (chatId : Int) (rawText : String) (w : World) (st : ConvState),
      (∀ n, so n = none) →
      (stripS rawText != "") = true →
      startsWithS "/help" (stripS rawText) = false →
      (w.state.isSome && containsAny STOP_CONVERSATION_PHRASES (lowerS (stripS rawText)).data) = false →
      startsWithS "/schedule" (stripS rawText) = false →
      startsWithS "/reschedule" (stripS rawText) = false →
      startsWithS "/cancel" (stripS rawText) = false →
      containsAny CANCEL_KEYWORDS (lowerS (stripS rawText)).data = false →
      w.state = some st →
      st.intent = "reschedule" →
      w.event = none →
      ((telegram_webhook fp so eo calS now chatId rawText w).1 = Except.ok "ok")
      ∧ (telegram_webhook fp so eo calS now chatId rawText w).2.event = none
      ∧ ((newEffects w (telegram_webhook fp so eo calS now chatId rawText w)).all
          (fun e => !isCollabOp e)) = true
      ∧ (∀ s, (merge_schedule_details fp now (stripS rawText) st.draft).start = some s →
          now < s →
          (telegram_webhook fp so eo calS now chatId rawText w).2.state = none
          ∧ Effect.tgSend chatId MISSING_EVENT_MOVE_TEXT ∈
              newEffects w (telegram_webhook fp so eo calS now chatId rawText w))) := by
  constructor
  · intro fp so eo calS now chatId rawText w hso hne hhelp hstop hsch hres hcan hkw hi1 hi2 hkwres hev
    simp only [telegram_webhook, bind_run, pure_run, append_message_run hso, get_state_run hso,
      get_event_run hso, set_state_run hso, tg_send_run, hne, hhelp, hstop, hsch, hres, hcan,
      hkw, hi1, hi2, hkwres, hev, if_true, if_false, Bool.false_eq_true, ite_true, ite_false]
    simp [List.append_assoc]
  · intro fp so eo calS now chatId rawText w st hso hne hhelp hstop hsch hres hcan hkw hst hint hev
    have hi1 : intentIs "schedule" w.state = false := by
      rw [hst]; simp [intentIs, hint]
    have hi2 : intentIs "reschedule" w.state = true := by
      rw [hst]; simp [intentIs, hint]
    have hdr : (match w.state with
                | some st2 => st2.draft
                | none => emptyDraft) = st.draft := by rw [hst]
    have hstep : telegram_webhook fp so eo calS now chatId rawText w =
        ((complete_schedule so eo calS now chatId
            (merge_schedule_details fp now (stripS rawText) st.draft) true) >>= fun _ =>
          (pure "ok" : M String))
          { w with
            effects := w.effects ++
                         [Effect.stAppend chatId (stripS rawText), Effect.stGetState,
                          Effect.stGetEvent],
            stCalls := w.stCalls + 3 } := by
      simp only [telegram_webhook, bind_run, pure_run, append_message_run hso,
        get_state_run hso, get_event_run hso, hne, hhelp, hstop, hsch, hres, hcan, hkw,
        hi1, hi2, hdr, if_true, if_false, Bool.false_eq_true, ite_true, ite_false]
      simp [List.append_assoc]
    set w3 : World :=
      { w with
        effects := w.effects ++
                     [Effect.stAppend chatId (stripS rawText), Effect.stGetState,
                      Effect.stGetEvent],
        stCalls := w.stCalls + 3 } with hw3
    have hev3 : w3.event = none := hev
    obtain ⟨hok, hevC, heff, hall, hmiss⟩ := complete_res_no_event so eo calS now chatId
      (merge_schedule_details fp now (stripS rawText) st.draft) w3 hso hev3
    rw [bind_run] at hstep
    rcases hC : complete_schedule so eo calS now chatId
        (merge_schedule_details fp now (stripS rawText) st.draft) true w3 with ⟨r1, w4⟩
    rw [hC] at hok hevC heff hall hmiss hstep
    simp only at hok
    subst hok
    simp only at hevC heff hall hmiss
    have hrun : telegram_webhook fp so eo calS now chatId rawText w = (Except.ok "ok", w4) := by
      rw [hstep]
      rfl
    have hNE : newEffects w (telegram_webhook fp so eo calS now chatId rawText w) =
        [Effect.stAppend chatId (stripS rawText), Effect.stGetState, Effect.stGetEvent] ++
          newEffects w3 (Except.ok true, w4) := by
      rw [hrun]
      exact newEffects_chain w w3 (Except.ok true, w4)
        [Effect.stAppend chatId (stripS rawText), Effect.stGetState, Effect.stGetEvent]
        rfl heff
    refine ⟨by rw [hrun], by rw [hrun]; exact hevC, ?_, ?_⟩
    · rw [hNE]
      simp only [List.all_append, hall, Bool.and_true]
      simp [isCollabOp]
    · intro s hs hfut
      obtain ⟨hstate, hmem⟩ := hmiss s hs hfut
      refine ⟨by rw [hrun]; exact hstate, ?_⟩
      rw [hNE]
      exact List.mem_append_right _ hmem

/-- C5 witness: a complete draft (title, duration, date) whose start
`2024-03-01T07:00` is before now = `2024-03-01T08:00` only stores the
Awaiting state and asks for a future time. -/
theorem c5_witness :
    complete_schedule oracleOk oracleOk calS0 now83 7
        ⟨"team sync", some (dtM 2024 3 1 7 0), some 60, some (civil 2024 3 1)⟩ false w0 =
      (Except.ok true,
       { w0 with
         state := some (awaitStateOf
           ⟨"team sync", some (dtM 2024 3 1 7 0), some 60, some (civil 2024 3 1)⟩ false),
         effects := w0.effects ++
           [Effect.stSetState (some (awaitStateOf
              ⟨"team sync", some (dtM 2024 3 1 7 0), some 60, some (civil 2024 3 1)⟩ false)),
            Effect.tgSend 7 PAST_TIME_TEXT],
         stCalls := w0.stCalls + 1 })
    ∧ (newEffects w0 (complete_schedule oracleOk oracleOk calS0 now83 7
        ⟨"team sync", some (dtM 2024 3 1 7 0), some 60, some (civil 2024 3 1)⟩ false w0)).all
        (fun e => !isCollabOp e) = true :=
  c5_past_start_never_finalizes oracleOk oracleOk calS0 now83 7
    ⟨"team sync", some (dtM 2024 3 1 7 0), some 60, some (civil 2024 3 1)⟩ false w0
    (dtM 2024 3 1 7 0) (fun _ => rfl) rfl (by decide)

/-- C6 witness: keyword-triggered reschedule ("please shift it") with no
stored appointment ends in the MissingContext message with the state
cleared. -/
theorem c6_witness :
    telegram_webhook fpNone oracleOk oracleOk calS0 now83 7 "please shift it" w0 =
      (Except.ok "ok",
       { w0 with state := none,
                 effects := w0.effects ++
                   [Effect.stAppend 7 (stripS "please shift it"), Effect.stGetState,
                    Effect.stGetEvent, Effect.tgSend 7 MISSING_EVENT_KW_TEXT,
                    Effect.stSetState none],
                 stCalls := w0.stCalls + 4 }) :=
  (c6_reschedule_missing_context.1) fpNone oracleOk oracleOk calS0 now83 7 "please shift it" w0
    (fun _ => rfl) (by decide) (by decide) (by decide) (by decide) (by decide) (by decide)
    (by decide) (by decide) (by decide) (by decide) rfl

/-! ## Claim C7 -/

/-- `raise ValueError` runs. -/
theorem mThrow_run {α : Type} (e : String) (w : World) :
    (mThrow e : M α) w = (Except.error e, w) := rfl

/-- C7 (corrected): a malformed `/schedule` command sent while a draft was
open **clears** the stored conversation state instead of leaving it
unchanged (and does send the literal usage-format error). -/
theorem c7_counterexample :
    ((telegram_webhook fpNone oracleOk oracleOk calS0 now83 7 "/schedule tomorrow" wDraft).2.state
      = none)
    ∧ wDraft.state.isSome = true
    ∧ (Effect.tgSend 7 ("Failed to schedule: " ++ SCHEDULE_USAGE_TEXT) ∈
        (telegram_webhook fpNone oracleOk oracleOk calS0 now83 7
          "/schedule tomorrow" wDraft).2.effects) := by
  decide

/-- C7 (amended): a malformed explicit command — a `/schedule` or
`/reschedule` message whose text does not match the fixed grammar — returns
the literal usage-format error message (inside "Failed to
schedule/reschedule: …") and **clears** the stored conversation state (it
is set to empty, not left unchanged); no calendar, task or email operation
is issued.  (A message that also contains a stop phrase while state is open
takes the stop-phrase branch instead.) -/
theorem c7_malformed_command :
    (∀ (fp : FuzzyAbs) (so eo : Oracle) (calS : String → String) (now : DT)
       (chatId : Int) (rawText : String) (w : World),
      (∀ n, so n = none) →
      (stripS rawText != "") = true →
      startsWithS "/help" (stripS rawText) = false →
      (w.state.isSome && containsAny STOP_CONVERSATION_PHRASES (lowerS (stripS rawText)).data) = false →
      startsWithS "/schedule" (stripS rawText) = true →
      matchScheduleCmd (stripS rawText).data = none →
      telegram_webhook fp so eo calS now chatId rawText w =
        (Except.ok "ok",
         { w with state := none,
                  effects := w.effects ++
                    [Effect.stAppend chatId (stripS rawText), Effect.stGetState,
                     Effect.stSetState none,
                     Effect.tgSend chatId ("Failed to schedule: " ++ SCHEDULE_USAGE_TEXT)],
                  stCalls := w.stCalls + 3 }))
    ∧ (∀ (fp : FuzzyAbs) (so eo : Oracle) (calS : String → String) (now : DT)
         (chatId : Int) (rawText : String) (w : World),
      (∀ n, so n = none) →
      (stripS rawText != "") = true →
      startsWithS "/help" (stripS rawText) = false →
      (w.state.isSome && containsAny STOP_CONVERSATION_PHRASES (lowerS (stripS rawText)).data) = false →
      startsWithS "/schedule" (stripS rawText) = false →
      startsWithS "/reschedule" (stripS rawText) = true →
      matchRescheduleCmd (stripS rawText).data = none →
      telegram_webhook fp so eo calS now chatId rawText w =
        (Except.ok "ok",
         { w with state := none,
                  effects := w.effects ++
                    [Effect.stAppend chatId (stripS rawText), Effect.stGetState,
                     Effect.stSetState none,
                     Effect.tgSend chatId ("Failed to reschedule: " ++ RESCHEDULE_USAGE_TEXT)],
                  stCalls := w.stCalls + 3 })) := by
  constructor
  · intro fp so eo calS now chatId rawText w hso hne hhelp hstop hpre hmal
    simp only [telegram_webhook, bind_run, pure_run, append_message_run hso, get_state_run hso,
      set_state_run hso, tg_send_run, mTry, mThrow_run, hmal, hne, hhelp, hstop, hpre,
      if_true, if_false, Bool.false_eq_true, ite_true, ite_false]
    simp [List.append_assoc]
  · intro fp so eo calS now chatId rawText w hso hne hhelp hstop hsch hpre hmal
    simp only [telegram_webhook, bind_run, pure_run, append_message_run hso, get_state_run hso,
      set_state_run hso, tg_send_run, mTry, mThrow_run, hmal, hne, hhelp, hstop, hsch, hpre,
      if_true, if_false, Bool.false_eq_true, ite_true, ite_false]
    simp [List.append_assoc]

/-- C7 witness: the malformed command "/schedule tomorrow" with an open
draft yields the usage error and the cleared state. -/
theorem c7_witness :
    telegram_webhook fpNone oracleOk oracleOk calS0 now83 7 "/schedule tomorrow" wDraft =
      (Except.ok "ok",
       { wDraft with state := none,
                     effects := wDraft.effects ++
                       [Effect.stAppend 7 (stripS "/schedule tomorrow"), Effect.stGetState,
                        Effect.stSetState none,
                        Effect.tgSend 7 ("Failed to schedule: " ++ SCHEDULE_USAGE_TEXT)],
                     stCalls := wDraft.stCalls + 3 }) :=
  (c7_malformed_command.1) fpNone oracleOk oracleOk calS0 now83 7 "/schedule tomorrow" wDraft
    (fun _ => rfl) (by decide) (by decide) (by decide) (by decide) rfl

/-! ## Claim C8 -/

/-- C8 (corrected): even granting the spec's presumed absolute-parse result
(`fp8` resolves the message to `2024-03-02T10:00`), the single message
"schedule team sync tomorrow at 10 for an hour" in an empty conversation
issues **no** calendar (or task or email) operation — finalize does not run
and no `CalendarService.create` is issued, refuting the claimed
`create("team sync", 2024-03-02T10:00, 60)`.  The stored draft has title
"team sync", duration 60 and date 2024-03-02 but no resolved time. -/
theorem c8_counterexample :
    ((telegram_webhook fp8 oracleOk oracleOk calS0 now83 7
        "schedule team sync tomorrow at 10 for an hour" w0).2.effects.all
      (fun e => !isCollabOp e)) = true
    ∧ (telegram_webhook fp8 oracleOk oracleOk calS0 now83 7
        "schedule team sync tomorrow at 10 for an hour" w0).2.state =
      some ⟨"schedule", ⟨some "team sync", some 60, some (civil 2024 3 2)⟩⟩ := by
  decide

/-- C8 (amended): the bare "10" never matches the time regex (it requires
`HH:MM`, am/pm, noon or midnight), so the extraction has no usable time;
with the fuzzy parser resolving the message to `2024-03-02T10:00` as the
spec intends, the handler stores the draft
`{title: "team sync", duration: 60, date: 2024-03-02}` in the Awaiting
state and prompts for the time instead of finalizing. -/
theorem c8_no_time_recognized :
    searchTimeComponent "schedule team sync tomorrow at 10 for an hour".data = false
    ∧ telegram_webhook fp8 oracleOk oracleOk calS0 now83 7
        "schedule team sync tomorrow at 10 for an hour" w0 =
      (Except.ok "ok",
       { w0 with
         state := some ⟨"schedule", ⟨some "team sync", some 60, some (civil 2024 3 2)⟩⟩,
         effects := [Effect.stAppend 7 "schedule team sync tomorrow at 10 for an hour",
                     Effect.stGetState,
                     Effect.stSetState
                       (some ⟨"schedule", ⟨some "team sync", some 60, some (civil 2024 3 2)⟩⟩),
                     Effect.tgSend 7 "Got it, I\x27ll take care of team sync. What time should I use?"],
         stCalls := 3 }) := by
  constructor
  · decide
  · rfl

/-! ## Claim C9 -/

set_option maxHeartbeats 1000000 in
/-- C9 (confirmed): with any non-empty conversation state, a non-`/help`
message containing a stop phrase ("never mind", "nevermind", "forget it",
"ignore that") clears the stored state, sends only the acknowledgment
message, leaves the stored appointment untouched and issues zero
calendar/task/email operations. -/
theorem c9_stop_phrase_clears_draft (fp : FuzzyAbs) (so eo : Oracle)
    (calS : String → String) (now : DT) (chatId : Int) (rawText : String) (w : World)
    (st : ConvState)
    (hso : ∀ n, so n = none)
    (hst : w.state = some st)
    (hne : (stripS rawText != "") = true)
    (hhelp : startsWithS "/help" (stripS rawText) = false)
    (hp : containsAny STOP_CONVERSATION_PHRASES (lowerS (stripS rawText)).data = true) :
    telegram_webhook fp so eo calS now chatId rawText w =
      (Except.ok "ok",
       { w with state := none,
                effects := w.effects ++
                  [Effect.stAppend chatId (stripS rawText), Effect.stGetState,
                   Effect.stSetState none, Effect.tgSend chatId STOP_ACK_TEXT],
                stCalls := w.stCalls + 3 })
    ∧ (telegram_webhook fp so eo calS now chatId rawText w).2.event = w.event
    ∧ (newEffects w (telegram_webhook fp so eo calS now chatId rawText w)).all
        (fun e => !isCollabOp e) = true := by
  have main : telegram_webhook fp so eo calS now chatId rawText w =
      (Except.ok "ok",
       { w with state := none,
                effects := w.effects ++
                  [Effect.stAppend chatId (stripS rawText), Effect.stGetState,
                   Effect.stSetState none, Effect.tgSend chatId STOP_ACK_TEXT],
                stCalls := w.stCalls + 3 }) := by
    simp only [telegram_webhook, bind_run, pure_run, append_message_run hso, get_state_run hso,
      set_state_run hso, tg_send_run, hne, hhelp, hp, hst, if_true, if_false,
      Bool.false_eq_true, ite_true, ite_false, Option.isSome_some, Bool.true_and]
    simp [List.append_assoc]
  refine ⟨main, by rw [main], ?_⟩
  rw [main]
  simp only [newEffects, List.drop_left]
  simp [isCollabOp]

/-- C9 witness: "never mind" with an open schedule draft and a stored
appointment: the draft is cleared, only the acknowledgment is sent, the
appointment survives. -/
theorem c9_witness :
    telegram_webhook fpNone oracleOk oracleOk calS0 now83 7 "never mind" wDraftEv =
      (Except.ok "ok",
       { wDraftEv with state := none,
                       effects := wDraftEv.effects ++
                         [Effect.stAppend 7 (stripS "never mind"), Effect.stGetState,
                          Effect.stSetState none, Effect.tgSend 7 STOP_ACK_TEXT],
                       stCalls := wDraftEv.stCalls + 3 })
    ∧ (telegram_webhook fpNone oracleOk oracleOk calS0 now83 7 "never mind" wDraftEv).2.event =
        wDraftEv.event
    ∧ (newEffects wDraftEv
        (telegram_webhook fpNone oracleOk oracleOk calS0 now83 7 "never mind" wDraftEv)).all
        (fun e => !isCollabOp e) = true :=
  c9_stop_phrase_clears_draft fpNone oracleOk oracleOk calS0 now83 7 "never mind" wDraftEv
    stSched (fun _ => rfl) rfl (by decide) (by decide) (by decide)

/-! ## Claim C10 -/

/-- A message that does not start with `/` starts with no slash-command. -/
theorem not_cmd_prefix (t rest : String) (h : startsWithS "/" t = false) :
    startsWithS ("/" ++ rest) t = false := by
  unfold startsWithS at h ⊢
  rw [String.data_append]
  cases ht : t.data with
  | nil => rfl
  | cons a as =>
    rw [ht] at h
    simp only [isPre, Bool.and_eq_false_iff] at h ⊢
    rcases h with h | h
    · exact Or.inl h
    · simp [isPre] at h

/-- C10 (corrected): the cancel-keyword check loses to the stop-phrase
branch — with an open draft and a stored appointment, the message
"never mind, drop it" (which contains the cancel keyword "drop") does *not*
run appointment cancellation: no calendar-delete is issued and the stored
appointment survives, refuting the claim for every keyword-containing
non-command message. -/
theorem c10_counterexample :
    containsAny CANCEL_KEYWORDS (lowerS (stripS "never mind, drop it")).data = true
    ∧ ((telegram_webhook fpNone oracleOk oracleOk calS0 now83 7 "never mind, drop it"
        wDraftEv).2.event = some ev1)
    ∧ ((telegram_webhook fpNone oracleOk oracleOk calS0 now83 7 "never mind, drop it"
        wDraftEv).2.effects.all (fun e => !(e == Effect.calDelete "evX"))) = true := by
  decide

set_option maxHeartbeats 1000000 in
/-- C10 (amended): for every non-command message (not starting with `/`)
whose lowercased text contains a cancel keyword as a raw substring —
including inside a longer word such as "dropbox" — the handler runs
appointment cancellation, **unless** the conversation state is non-empty
and the text also contains a stop phrase (that branch comes first):
conversation state is cleared and, if an appointment is stored, the
calendar delete and reminder-task deletion are issued and the appointment
removed; this runs before (and instead of) any continuation handling of an
open draft. -/
theorem c10_cancel_substring (fp : FuzzyAbs) (so eo : Oracle)
    (calS : String → String) (now : DT) (chatId : Int) (rawText : String) (w : World)
    (hso : ∀ n, so n = none)
    (heo : ∀ n, eo n = none)
    (hne : (stripS rawText != "") = true)
    (hcmd : startsWithS "/" (stripS rawText) = false)
    (hstop : (w.state.isSome &&
      containsAny STOP_CONVERSATION_PHRASES (lowerS (stripS rawText)).data) = false)
    (hkw : containsAny CANCEL_KEYWORDS (lowerS (stripS rawText)).data = true) :
    (∀ ev, w.event = some ev →
      telegram_webhook fp so eo calS now chatId rawText w =
        (Except.ok "ok",
         { w with state := none, event := none,
                  effects := w.effects ++
                    [Effect.stAppend chatId (stripS rawText), Effect.stGetState,
                     Effect.stSetState none, Effect.stGetEvent,
                     Effect.calDelete ev.eventId, Effect.stGetTasks,
                     Effect.taskDel w.taskNames, Effect.stSetEvent none,
                     Effect.tgSend chatId CANCEL_ACK_TEXT],
                  stCalls := w.stCalls + 6, exCalls := w.exCalls + 1 }))
    ∧ (w.event = none →
      telegram_webhook fp so eo calS now chatId rawText w =
        (Except.ok "ok",
         { w with state := none,
                  effects := w.effects ++
                    [Effect.stAppend chatId (stripS rawText), Effect.stGetState,
                     Effect.stSetState none, Effect.stGetEvent,
                     Effect.tgSend chatId CANCEL_ACK_TEXT],
                  stCalls := w.stCalls + 4 })) := by
  have hhelp : startsWithS "/help" (stripS rawText) = false :=
    not_cmd_prefix (stripS rawText) "help" hcmd
  have hsch : startsWithS "/schedule" (stripS rawText) = false :=
    not_cmd_prefix (stripS rawText) "schedule" hcmd
  have hres : startsWithS "/reschedule" (stripS rawText) = false :=
    not_cmd_prefix (stripS rawText) "reschedule" hcmd
  have hcan : startsWithS "/cancel" (stripS rawText) = false :=
    not_cmd_prefix (stripS rawText) "cancel" hcmd
  constructor
  · intro ev hev
    simp only [telegram_webhook, handle_cancel, mTry, bind_run, pure_run,
      append_message_run hso, get_state_run hso, set_state_run hso, get_event_run hso,
      get_task_names_run hso, set_event_run hso, cancel_event_run heo, delete_tasks_run,
      tg_send_run, hne, hhelp, hstop, hsch, hres, hcan, hkw, hev,
      if_true, if_false, Bool.false_eq_true, ite_true, ite_false]
    simp [List.append_assoc]
  · intro hev
    simp only [telegram_webhook, handle_cancel, mTry, bind_run, pure_run,
      append_message_run hso, get_state_run hso, set_state_run hso, get_event_run hso,
      tg_send_run, hne, hhelp, hstop, hsch, hres, hcan, hkw, hev,
      if_true, if_false, Bool.false_eq_true, ite_true, ite_false]
    simp [List.append_assoc]

/-- C10 witness: "check my dropbox" — the keyword "drop" inside "dropbox" —
with an open schedule draft and a stored appointment runs the full
cancellation. -/
theorem c10_witness :
    telegram_webhook fpNone oracleOk oracleOk calS0 now83 7 "check my dropbox" wDraftEv =
      (Except.ok "ok",
       { wDraftEv with state := none, event := none,
                       effects := wDraftEv.effects ++
                         [Effect.stAppend 7 (stripS "check my dropbox"), Effect.stGetState,
                          Effect.stSetState none, Effect.stGetEvent,
                          Effect.calDelete ev1.eventId, Effect.stGetTasks,
                          Effect.taskDel wDraftEv.taskNames, Effect.stSetEvent none,
                          Effect.tgSend 7 CANCEL_ACK_TEXT],
                       stCalls := wDraftEv.stCalls + 6,
                       exCalls := wDraftEv.exCalls + 1 }) :=
  (c10_cancel_substring fpNone oracleOk oracleOk calS0 now83 7 "check my dropbox" wDraftEv
    (fun _ => rfl) (fun _ => rfl) (by decide) (by decide) (by decide) (by decide)).1
    ev1 rfl
